import Mathlib

/-!
# Verification of the Weather backend's caching/dispatch and question-resolution logic

Shallow embedding of `src/controllers/weather.controller.js` (weather part and
chat part) of the Vietanh30/Weather repository, together with proofs settling
the frozen claims about the cache/lookup layer, the upstream retry interceptor,
the question resolver and the seven-day forecast composition.

Modelling conventions:
* JavaScript query-string parameters are `Option String`; JS truthiness of such
  a value is `truthy` below (absent and `""` are both falsy).
* Upstream I/O (geocoding, weather API, OpenWeatherMap, Gemini) is represented
  by outcome values carried in an `Env` record: each handler consumes the
  outcome of the call it would make.  Counts of the calls actually issued are
  returned in the handler result.
* Timestamps are integers (hours for the persisted-record freshness check, the
  unit used by `findInDatabase`); calendar dates are carried either as the raw
  `YYYY-MM-DD` strings the code passes around or, for dates the fallback
  resolver *computes*, as epoch-day integers.
* JS floating-point numbers that the code compares or averages are modelled as
  exact rationals (`ℚ`); the claims settled here depend only on order
  comparisons and field plumbing, not on IEEE rounding.
* Upstream payloads that the code never inspects are opaque (`Payload.raw`).
-/

namespace Weather

/-- JS truthiness of an optional query-string value: `undefined` and `""` are
falsy, every other string is truthy. -/
def truthy : Option String → Bool
  | none => false
  | some s => !s.isEmpty

/-- Digit list to natural number (used by the numeric parsers). -/
def natVal (cs : List Char) : Nat :=
  cs.foldl (fun acc c => acc * 10 + (c.toNat - '0'.toNat)) 0

/-- Split a leading run of decimal digits. -/
def takeDigits (cs : List Char) : List Char × List Char :=
  match cs with
  | [] => ([], [])
  | c :: t =>
    if c.isDigit then
      let (ds, rest) := takeDigits t
      (c :: ds, rest)
    else ([], c :: t)

/-- `parseFloat` as used by `validateLocation` (weather.controller.js:108-109):
skips leading spaces, optional sign, decimal digits with an optional fractional
part, ignores trailing junk; `none` models `NaN`.  (Exponent notation is not
modelled; no claim depends on it.) -/
def parseFloatQ (s : String) : Option ℚ :=
  let cs := s.toList.dropWhile (fun c => c = ' ')
  let (sign, cs) : ℚ × List Char :=
    match cs with
    | '-' :: t => (-1, t)
    | '+' :: t => (1, t)
    | _ => (1, cs)
  let (ip, cs) := takeDigits cs
  let (fp, _) :=
    match cs with
    | '.' :: t => takeDigits t
    | _ => ([], cs)
  if ip.isEmpty && fp.isEmpty then none
  else some (sign * ((natVal ip : ℚ) + (natVal fp : ℚ) / (10 : ℚ) ^ fp.length))

/-- `parseInt(s)` (radix 10) as used by `validateDays`: leading spaces, optional
sign, then digits; `none` models `NaN`. -/
def parseIntJS (s : String) : Option Int :=
  let cs := s.toList.dropWhile (fun c => c = ' ')
  let (sign, cs) : Int × List Char :=
    match cs with
    | '-' :: t => (-1, t)
    | '+' :: t => (1, t)
    | _ => (1, cs)
  let (ip, _) := takeDigits cs
  if ip.isEmpty then none else some (sign * (natVal ip : Int))

/-- Substring test over character lists (JS `String.prototype.includes`). -/
def containsSub (hay sub : List Char) : Bool :=
  match hay with
  | [] => sub.isEmpty
  | _ :: t => sub.isPrefixOf hay || containsSub t sub

/-- JS `a.includes(b)` on strings. -/
def strIncludes (s sub : String) : Bool :=
  containsSub s.toList sub.toList

/-- `question.toLowerCase()` restricted to the ASCII range (the same
restriction `String.toLower` has; JS additionally folds accented capitals,
which none of the proved properties depend on — the pattern literals are
already lowercase).  Mapped over the character list so that the kernel can
evaluate it. -/
def jsToLower (s : String) : String :=
  ⟨s.data.map Char.toLower⟩

/-! ## Data model: seven-day forecast entries -/

/-- One element of an OpenWeatherMap `weather` array (`main`, `description`,
`icon`), as produced by the 5-day aggregation and by the Gemini prediction. -/
structure WeatherDesc where
  main : String
  description : String
  icon : String
deriving DecidableEq, Repr

/-- The `main` block of a processed forecast day (temperatures/humidity as
exact rationals standing for the JS numbers). -/
structure FMain where
  temp : ℚ
  feels_like : ℚ
  temp_min : ℚ
  temp_max : ℚ
  humidity : ℚ
deriving DecidableEq, Repr

/-- The `wind` block of a processed forecast day. -/
structure FWind where
  speed : ℚ
  deg : ℚ
deriving DecidableEq, Repr

/-- One processed forecast day of `processedData.forecast`
(weather.controller.js:840-867 and the two AI-predicted entries pushed at
1080-1119).  The `dt` epoch timestamp and the constant `clouds`/`visibility`
fields are omitted: they are derived from `dt_txt` and constants and are never
inspected by the validation gate or by any claim. -/
structure FDay where
  dt_txt : String
  main : FMain
  weather : List WeatherDesc
  wind : FWind
  pop : ℚ
deriving DecidableEq, Repr

/-- One Gemini-predicted day (`predictedData.day6` / `.day7`, the JSON shape
requested at weather.controller.js:949-995).  AI responses whose shape does not
match this structure throw a `TypeError` in the JS and are absorbed by the
`catch (geminiError)` handler, which the embedding models as the prediction
being absent. -/
structure PredDay where
  date : String
  main : FMain
  weather : List WeatherDesc
  wind : FWind
  pop : ℚ
deriving DecidableEq, Repr

/-- The parsed `{day6, day7}` prediction object. -/
structure Prediction where
  day6 : PredDay
  day7 : PredDay
deriving DecidableEq, Repr

/-- The `processedData` value returned and persisted by the seven-day endpoint:
`location.name` from the OpenWeatherMap response (country/coord omitted,
uninspected), the forecast array and the `notice` string set by the
composition step. -/
structure SevenDayData where
  locName : Option String
  forecast : List FDay
  notice : Option String
deriving DecidableEq, Repr

/-! ## Data model: question-resolver intents (used by the resolver below and
embedded in persisted chat records) -/

/-- The `time` object of an analysis.  A missing `isHistory` is falsy in every
use, so it is modelled directly as `Bool`. -/
structure TimeInfo where
  type : Option String
  value : Option Int
  period : Option String
  isHistory : Bool
deriving DecidableEq, Repr

/-- A successfully JSON-parsed AI analysis; any field the AI omitted (or set
to `null`) is `none`. -/
structure ParsedAnalysis where
  location : Option String
  time : Option TimeInfo
  type : Option String
  details : List String
deriving DecidableEq, Repr

/-- The resolver's output: after `analyzeQuestion` the `type` field is always
a string (either accepted or reclassified). -/
structure Analysis where
  location : Option String
  time : Option TimeInfo
  type : String
  details : List String
deriving DecidableEq, Repr

/-! ## Data model: alerts and notifications -/

/-- One upstream alert object, restricted to the fields the notification
handlers read (all optional — upstream may omit any of them). -/
structure Alert where
  alert_id : Option String := none
  alert_type : Option String := none
  severity : Option String := none
  headline : Option String := none
  desc : Option String := none
  area : Option String := none
  effective : Option String := none
  expires : Option String := none
  source : Option String := none
  instruction : Option String := none
deriving DecidableEq, Repr

/-- A parsed Gemini translation of an alert — the `headline`/`desc`/
`instruction` JSON requested at weather.controller.js:1314-1328; fields the
AI omitted are `none` and overwrite the alert's fields with `undefined`, as
the spread-and-assign at 1336-1341 does. -/
structure Translation where
  headline : Option String := none
  desc : Option String := none
  instruction : Option String := none
deriving DecidableEq, Repr

/-- One formatted alert of the notifications response
(weather.controller.js:1415-1426). -/
structure NotifAlert where
  id : Option String
  type : Option String
  severity : Option String
  title : Option String
  description : Option String
  area : Option String
  startTime : Option String
  endTime : Option String
  source : Option String
  instructions : Option String
deriving DecidableEq, Repr

/-- The notifications response document `{alerts, total, location}`; the
upstream `location` object is opaque. -/
structure NotifData where
  alerts : List NotifAlert
  total : Nat
  location : Nat
deriving DecidableEq, Repr

/-- Gemini's parsed risk-analysis supplement for one alert (the JSON shape
requested at weather.controller.js:1684-1710), flattened: `risk_level` and
`risk_description` are `risk_analysis.level`/`.description`, the `impact_*`
fields are `impact_time.start`/`.peak`/`.end`. -/
structure AddInfo where
  risk_level : String
  risk_description : String
  prevention_measures : List String
  affected_groups : List String
  high_risk_areas : List String
  impact_start : Option String
  impact_peak : Option String
  impact_end : Option String
  reliable_sources : List String
  emergency_contacts : List String
deriving DecidableEq, Repr

/-- The detailed-alert response document (weather.controller.js:1726-1753):
the formatted alert fields plus `additional_info` (flattened into one JSON
object in the response). -/
structure DetailedAlert where
  base : NotifAlert
  additional_info : AddInfo
deriving DecidableEq, Repr

/-! ## Data model: chat records -/

/-- The normalized `analysis` block persisted with a chat record
(weather.controller.js:2850-2865): every field defensively defaulted, and
the legacy type `daily` mapped to `current`. -/
structure AnalysisData where
  location : Option String
  timeType : String
  timeValue : Option Int
  timePeriod : Option String
  isHistory : Bool
  type : String
  details : List String
deriving DecidableEq, Repr

/-- The weather snapshot assembled for one chat turn
(`weatherData`, weather.controller.js:2655-2667).  The per-report fields hold
the opaque upstream JSON bodies (represented by their `raw` ids; `none` =
that fetch failed and was swallowed); the chat code only tests them for
nullness and feeds them to the generative call. -/
structure ChatSnapshot where
  locName : String
  current : Option Nat
  forecast : Option Nat
  history : Option Nat
  astronomy : Option Nat
  future : Option Nat
  marine : Option Nat
  timezone : Option Nat
  alerts : Option Nat
  analysis : Analysis
  targetDate : Int
deriving DecidableEq, Repr

/-- One persisted chat record (`Chat.create`, weather.controller.js:2868-2880;
`timestamp` is the schema's `Date.now` default). -/
structure ChatDoc where
  question : String
  answer : String
  weatherData : Option ChatSnapshot
  timestamp : Int
  sessionId : String
  location : Option String
  date : Option Int
  type : String
  analysis : Option AnalysisData
deriving DecidableEq, Repr

/-! ## Data model: payloads, persisted records, responses -/

/-- A payload held in a response or a persisted record.  `raw n` is an
upstream JSON document that the controller never inspects (only passes
through); the other constructors are the structured documents the
notification, subscription and chat handlers build themselves, and `empty`
is a JSON `undefined` data field (sent when the chat pipeline returns no
record). -/
inductive Payload where
  | raw (n : Nat)
  | seven (d : SevenDayData)
  | notif (d : NotifData)
  | detail (d : DetailedAlert)
  | sub (deviceId : String) (location : String) (severity : Option String)
      (types : Option String)
  | chatDoc (d : ChatDoc)
  | chatList (ds : List ChatDoc)
  | empty
deriving DecidableEq, Repr

/-- A document of one of the Mongo collections (`Weather`, `Marine`,
`Astronomy`, `History`), restricted to the fields the controller writes and
queries.  Fields a given handler does not set are `none`; `alertId` is set by
the notification-detail save, and the subscription fields (`deviceId`,
`fcmToken`, `severity`, `types`, `active`) by `subscribeToAlerts` (its
`createdAt`/`updatedAt` stamps are not separately modelled). -/
structure DbRecord where
  type : Option String := none
  source : Option String := none
  time : Int := 0
  longitude : Option String := none
  latitude : Option String := none
  city : Option String := none
  location : Option String := none
  days : Option String := none
  date : Option String := none
  alertId : Option String := none
  deviceId : Option String := none
  fcmToken : Option String := none
  severity : Option String := none
  types : Option String := none
  active : Option Bool := none
  data : Payload := .raw 0
deriving DecidableEq, Repr

/-- A `findOne` filter as built by the handlers (`dbQuery` objects).  A field
that is `none` is absent from the filter and unconstrained. -/
structure DbQuery where
  type : Option String := none
  city : Option String := none
  latitude : Option String := none
  longitude : Option String := none
  days : Option String := none
  date : Option String := none
  alertId : Option String := none
deriving DecidableEq, Repr

/-- Mongo matching: every field present in the filter must equal the record's
field (a record lacking the field does not match). -/
def matchesQuery (q : DbQuery) (r : DbRecord) : Bool :=
  (q.type.all fun v => r.type = some v) &&
  (q.city.all fun v => r.city = some v) &&
  (q.latitude.all fun v => r.latitude = some v) &&
  (q.longitude.all fun v => r.longitude = some v) &&
  (q.days.all fun v => r.days = some v) &&
  (q.date.all fun v => r.date = some v) &&
  (q.alertId.all fun v => r.alertId = some v)

/-- An HTTP response produced by a handler: either the success JSON
`{message, data}` or the error JSON `{error, message}` with its status. -/
inductive Resp where
  | ok (message : String) (data : Payload)
  | err (status : Nat) (error : String) (message : String)
deriving DecidableEq, Repr

/-! ## Data model: external call outcomes and the environment -/

/-- One geocoding feature's `properties` (only the fields the mapping at
weather.controller.js:1295-1302 reads; numeric coordinates carried as the
strings they print to). -/
structure GeoProps where
  formatted : String
  city : Option String
  state : Option String
  country : Option String
  lat : String
  lon : String
deriving DecidableEq, Repr

/-- A geocoding feature. -/
structure GeoFeature where
  properties : GeoProps
deriving DecidableEq, Repr

/-- The mapped location object `{name, city, state, country, lat, lon}`. -/
structure GeoLoc where
  name : String
  city : Option String
  state : Option String
  country : Option String
  lat : String
  lon : String
deriving DecidableEq, Repr

/-- Outcome of the Geoapify HTTP call inside `searchLocation`: a transport or
upstream error (the `catch`), or a 2xx response whose `data.features` is
missing (`none`) or present. -/
inductive GeoOutcome where
  | geoError
  | geoOk (features : Option (List GeoFeature))
deriving DecidableEq, Repr

/-- `searchLocation` (weather.controller.js:1277-1307): maps the features to
location objects; returns `[]` when features are absent or empty, and also
`[]` on any error (the `catch` logs and returns `[]`). -/
def searchLocation : GeoOutcome → List GeoLoc
  | .geoError => []
  | .geoOk none => []
  | .geoOk (some fs) =>
    fs.map fun f =>
      { name := f.properties.formatted
        city := f.properties.city
        state := f.properties.state
        country := f.properties.country
        lat := f.properties.lat
        lon := f.properties.lon }

/-- Final outcome of one `callWeatherAPI` invocation (after the interceptor's
retries): the payload, or the error the handler's `catch` receives, carrying
`error.response?.status` when the upstream answered and the JS error message. -/
inductive ApiOutcome where
  | apiOk (data : Payload)
  | apiErr (status : Option Nat) (msg : String)
deriving DecidableEq, Repr

/-- Final outcome of the OpenWeatherMap 5-day call in `getSevenDayForecast`:
a transport/application error carrying `apiError.response?.data?.message`, a
2xx response with no `data.list` (the `Invalid response` throw at line 803), or
a usable response.  `days` stands for the result of the per-day aggregation of
`data.list` (weather.controller.js:816-867), whose arithmetic no claim
inspects. -/
inductive OwmOutcome where
  | owmErr (msg : Option String)
  | owmInvalid
  | owmOk (cityName : Option String) (days : List FDay)
deriving DecidableEq, Repr

/-- An entry of the module-level in-memory cache `Map` (line 75). -/
structure CacheEntry where
  data : Payload
  timestamp : Int
deriving DecidableEq, Repr

/-- The per-request environment: the outcome each external call would have if
issued, the persisted collections, the clock, and the in-memory cache map. -/
structure Env where
  geo : GeoOutcome
  api : ApiOutcome
  owm : OwmOutcome
  gemini : Option Prediction
  dbFindOk : Bool
  saveOk : Bool
  dbWeather : List DbRecord
  dbMarine : List DbRecord
  dbAstronomy : List DbRecord
  dbHistory : List DbRecord
  now : Int
  todayIso : String
  memCache : List (String × CacheEntry)
deriving Repr

/-- The query-string of a weather request (all handlers destructure from this
set; `q`/`dt` are the aliases `getWeatherHistory` accepts; `alertId` is read
by the notification-detail handler, and `severity`/`type`/`area` are the
filters the notifications handler forwards upstream). -/
structure Req where
  location : Option String := none
  lat : Option String := none
  lon : Option String := none
  days : Option String := none
  date : Option String := none
  q : Option String := none
  dt : Option String := none
  alertId : Option String := none
  severity : Option String := none
  type : Option String := none
  area : Option String := none
deriving DecidableEq, Repr

/-- What a handler did: the response sent, how many geocoding calls and
upstream weather-API calls it issued, the `q` location parameter sent upstream
(coordinates rendered as `lat,lon`; the seven-day endpoint sends `lat`/`lon`
as separate parameters with the same content), and how many database writes it
attempted. -/
structure HResult where
  resp : Resp
  geoCalls : Nat
  upstreamCalls : Nat
  apiQuery : Option String
  dbWrites : Nat
deriving DecidableEq, Repr

/-! ## Validation (weather.controller.js:92-141) -/

/-- `validateLocation(location, lat, lon)`: a truthy `location` passes
immediately (the `typeof` check cannot fail for a query-string value);
otherwise both coordinates must be present, numeric and in range. -/
def validateLocation (location lat lon : Option String) : Except String Unit :=
  if truthy location then .ok ()
  else if !truthy lat || !truthy lon then
    .error "Location or coordinates (lat,lon) is required"
  else
    match parseFloatQ (lat.getD ""), parseFloatQ (lon.getD "") with
    | none, _ => .error "Latitude and longitude must be numbers"
    | _, none => .error "Latitude and longitude must be numbers"
    | some la, some lo =>
      if la < -90 || la > 90 then .error "Latitude must be between -90 and 90"
      else if lo < -180 || lo > 180 then
        .error "Longitude must be between -180 and 180"
      else .ok ()

/-- `validateDate(date)`: required and `YYYY-MM-DD`. -/
def isDateFormat (s : String) : Bool :=
  match s.toList with
  | [a, b, c, d, '-', e, f, '-', g, h] =>
    [a, b, c, d, e, f, g, h].all Char.isDigit
  | _ => false

/-- `validateDate` (weather.controller.js:124-132). -/
def validateDate (date : Option String) : Except String Unit :=
  if !truthy date then .error "Date is required"
  else if isDateFormat (date.getD "") then .ok ()
  else .error "Date must be in YYYY-MM-DD format"

/-- `validateDays` (weather.controller.js:134-141): only a truthy value is
checked; it must parse to a number in 1..14. -/
def validateDays (days : String) : Except String Unit :=
  if days.isEmpty then .ok ()
  else
    match parseIntJS days with
    | none => .error "Days must be a number between 1 and 14"
    | some n =>
      if n < 1 || n > 14 then .error "Days must be a number between 1 and 14"
      else .ok ()

/-! ## Database helpers (weather.controller.js:198-221) -/

/-- `findInDatabase(Model, query, timeWindow)`: the newest record of the
collection matching the filter whose `time` is at least `now` minus
`timeWindow` hours.  Ties on `time` are broken arbitrarily (Mongo's sort order
for equal keys is unspecified); this embedding keeps the later-listed record. -/
def findInDatabase (coll : List DbRecord) (now : Int) (q : DbQuery)
    (timeWindow : Nat) : Option DbRecord :=
  match coll with
  | [] => none
  | r :: rest =>
    if matchesQuery q r && decide (now - (timeWindow : Int) ≤ r.time) then
      match findInDatabase rest now q timeWindow with
      | none => some r
      | some b => if b.time < r.time then some r else some b
    else findInDatabase rest now q timeWindow

/-- The per-type freshness windows in hours (weather.controller.js:212-221). -/
structure CacheDurations where
  current : Nat
  forecast : Nat
  future : Nat
  marine : Nat
  astronomy : Nat
  timezone : Nat
  alerts : Nat
  history : Nat
deriving DecidableEq, Repr

/-- `CACHE_DURATIONS`. -/
def CACHE_DURATIONS : CacheDurations :=
  { current := 1, forecast := 3, future := 24, marine := 6, astronomy := 24
    timezone := 24, alerts := 1, history := 24 }

/-! ## The unused in-memory cache (weather.controller.js:74-90) -/

/-- `CACHE_DURATION` (30 minutes in milliseconds). -/
def CACHE_DURATION : Int := 30 * 60 * 1000

/-- `getCachedData(key)` over the module-level `Map`. -/
def getCachedData (cache : List (String × CacheEntry)) (nowMs : Int)
    (key : String) : Option Payload :=
  match cache.lookup key with
  | some e => if nowMs - e.timestamp < CACHE_DURATION then some e.data else none
  | none => none

/-- `setCachedData(key, data)` over the module-level `Map`. -/
def setCachedData (cache : List (String × CacheEntry)) (nowMs : Int)
    (key : String) (data : Payload) : List (String × CacheEntry) :=
  (key, { data := data, timestamp := nowMs }) :: cache.eraseP (fun p => p.1 = key)

/-! ## Shared request plumbing -/

/-- `lat && lon` in the handlers' truthiness sense. -/
def useCoords (req : Req) : Bool :=
  truthy req.lat && truthy req.lon

/-- `!lat || !lon`: the handler geocodes the place name. -/
def needsGeo (req : Req) : Bool :=
  !truthy req.lat || !truthy req.lon

/-- The template literal `` `${lat},${lon}` ``. -/
def coordQ (req : Req) : String :=
  req.lat.getD "" ++ "," ++ req.lon.getD ""

/-- `handleError`'s user message `Có lỗi xảy ra khi lấy thông tin ${type}.`. -/
def errMsg (t : String) : String :=
  "Có lỗi xảy ra khi lấy thông tin " ++ t ++ "."

/-- The message of the error a failed `Model.create`/`findOne` raises; its
exact text comes from the driver and is opaque to the controller, which only
forwards it. -/
def dbErrorMessage : String := "Database error"

/-- `error.response?.status || 500` in `handleError`. -/
def statusOr : Option Nat → Nat
  | some 0 => 500
  | some s => s
  | none => 500

/-- `locationData ? locationData[0].name : location`: the canonical city name
used in `dbQuery` and the saved record.  On the geocoding path `locationData`
is a non-empty array (the handler has already thrown otherwise), so the
fallback to the raw `location` mirrors the ternary's else-branch. -/
def resolvedCity (env : Env) (req : Req) : String :=
  match searchLocation env.geo with
  | l :: _ => l.name
  | [] => req.location.getD ""

/-! ## The cache-then-fetch handler shape

`getCurrentWeather`, `getForecast`, `getFutureWeather`, `getMarineWeather`,
`getTimeZone`, `getWeatherAlerts` and `getAstronomy`
(weather.controller.js:226-732) all follow the same literal sequence:
validate → build `queryParam` → geocode when a coordinate is missing (throwing
`Location not found` on an empty result) → `findInDatabase` → on a hit return
the stored `data`; on a miss `callWeatherAPI` once, `saveToDatabase` once and
return the fresh payload; any throw lands in `handleError`.  `EndpointCfg`
records exactly the points at which those handlers differ; each instance below
cites its handler. -/

/-- Which collection a handler reads and writes. -/
inductive Coll where
  | weather
  | marine
  | astronomy
deriving DecidableEq, Repr

/-- Collection selector. -/
def Env.collGet (env : Env) : Coll → List DbRecord
  | .weather => env.dbWeather
  | .marine => env.dbMarine
  | .astronomy => env.dbAstronomy

/-- Per-endpoint differences of the shared handler shape. -/
structure EndpointCfg where
  validateExtra : Req → Except String Unit
  dbQueryOf : Env → Req → DbQuery
  coll : Coll
  window : Nat
  hitMsg : String
  apiMsg : String
  errType : String

/-- The freshness-window lookup a handler performs. -/
def lookupOf (cfg : EndpointCfg) (env : Env) (req : Req) : Option DbRecord :=
  findInDatabase (env.collGet cfg.coll) env.now (cfg.dbQueryOf env req) cfg.window

/-- The endpoint-specific validation result (location check then extras, in
source order). -/
def validationOf (cfg : EndpointCfg) (req : Req) : Except String Unit :=
  match validateLocation req.location req.lat req.lon with
  | .error e => .error e
  | .ok _ => cfg.validateExtra req

/-- The shared handler body. -/
def cachedWeatherEndpoint (cfg : EndpointCfg) (env : Env) (req : Req) : HResult :=
  match validationOf cfg req with
  | .error e => ⟨.err 500 e (errMsg cfg.errType), 0, 0, none, 0⟩
  | .ok _ =>
    let queryParam := if useCoords req then coordQ req else req.location.getD ""
    let gc := if needsGeo req then 1 else 0
    if needsGeo req && (searchLocation env.geo).isEmpty then
      ⟨.err 500 "Location not found" (errMsg cfg.errType), gc, 0, none, 0⟩
    else if !env.dbFindOk then
      ⟨.err 500 dbErrorMessage (errMsg cfg.errType), gc, 0, none, 0⟩
    else
      match lookupOf cfg env req with
      | some r => ⟨.ok cfg.hitMsg r.data, gc, 0, none, 0⟩
      | none =>
        match env.api with
        | .apiOk p =>
          if env.saveOk then ⟨.ok cfg.apiMsg p, gc, 1, some queryParam, 1⟩
          else ⟨.err 500 dbErrorMessage (errMsg cfg.errType), gc, 1, some queryParam, 1⟩
        | .apiErr st m =>
          ⟨.err (statusOr st) m (errMsg cfg.errType), gc, 1, some queryParam, 0⟩

/-- The coordinate-or-city part shared by every `dbQuery` object. -/
def locQuery (env : Env) (req : Req) : DbQuery :=
  if useCoords req then { latitude := req.lat, longitude := req.lon }
  else { city := some (resolvedCity env req) }

/-- `getCurrentWeather`'s `dbQuery` (weather.controller.js:244-249). -/
def currentDbQuery (env : Env) (req : Req) : DbQuery :=
  { locQuery env req with type := some "current" }

/-- `days = 3` destructuring default of `getForecast` (a number in JS, carried
here as its decimal string). -/
def daysVal (req : Req) : String :=
  req.days.getD "3"

/-- `getForecast`'s `dbQuery` (weather.controller.js:315-321). -/
def forecastDbQuery (env : Env) (req : Req) : DbQuery :=
  { locQuery env req with type := some "forecast", days := some (daysVal req) }

/-- `getFutureWeather`'s `dbQuery` (weather.controller.js:389-395). -/
def futureDbQuery (env : Env) (req : Req) : DbQuery :=
  { locQuery env req with type := some "future", date := req.date }

/-- `getMarineWeather`'s `dbQuery` (weather.controller.js:462-467). -/
def marineDbQuery (env : Env) (req : Req) : DbQuery :=
  { locQuery env req with type := some "marine" }

/-- `getTimeZone`'s `dbQuery` (weather.controller.js:531-536). -/
def timezoneDbQuery (env : Env) (req : Req) : DbQuery :=
  { locQuery env req with type := some "timezone" }

/-- `getWeatherAlerts` computes `cityName` with an extra fallback
(weather.controller.js:600-602): `locationData ? locationData[0].name :
location || lat,lon`. -/
def alertsCityName (env : Env) (req : Req) : String :=
  match searchLocation env.geo with
  | l :: _ => l.name
  | [] => if truthy req.location then req.location.getD "" else coordQ req

/-- `getWeatherAlerts`'s `dbQuery` (weather.controller.js:605-608). -/
def alertsDbQuery (env : Env) (req : Req) : DbQuery :=
  if useCoords req then
    { type := some "alerts", latitude := req.lat, longitude := req.lon }
  else { type := some "alerts", city := some (alertsCityName env req) }

/-- `getAstronomy`'s `targetDate` (weather.controller.js:662): the supplied
date or today's ISO date. -/
def astronomyTargetDate (env : Env) (req : Req) : String :=
  if truthy req.date then req.date.getD "" else env.todayIso

/-- `getAstronomy`'s `dbQuery` (weather.controller.js:677-682) — note it has
no `type` field: the `Astronomy` collection is queried by date and location
only. -/
def astronomyDbQuery (env : Env) (req : Req) : DbQuery :=
  { locQuery env req with date := some (astronomyTargetDate env req) }

/-- Configuration of `getCurrentWeather` (weather.controller.js:226-291). -/
def currentCfg : EndpointCfg :=
  { validateExtra := fun _ => .ok ()
    dbQueryOf := currentDbQuery
    coll := .weather
    window := CACHE_DURATIONS.current
    hitMsg := "Current weather retrieved from database"
    apiMsg := "Current weather retrieved from API and saved to database"
    errType := "Current Weather" }

/-- Configuration of `getForecast` (weather.controller.js:296-365). -/
def forecastCfg : EndpointCfg :=
  { validateExtra := fun req => validateDays (daysVal req)
    dbQueryOf := forecastDbQuery
    coll := .weather
    window := CACHE_DURATIONS.forecast
    hitMsg := "Forecast retrieved from database"
    apiMsg := "Forecast retrieved from API and saved to database"
    errType := "Forecast" }

/-- Configuration of `getFutureWeather` (weather.controller.js:370-439). -/
def futureCfg : EndpointCfg :=
  { validateExtra := fun req => validateDate req.date
    dbQueryOf := futureDbQuery
    coll := .weather
    window := CACHE_DURATIONS.future
    hitMsg := "Future weather retrieved from database"
    apiMsg := "Future weather retrieved from API and saved to database"
    errType := "Future Weather" }

/-- Configuration of `getMarineWeather` (weather.controller.js:444-508). -/
def marineCfg : EndpointCfg :=
  { validateExtra := fun _ => .ok ()
    dbQueryOf := marineDbQuery
    coll := .marine
    window := CACHE_DURATIONS.marine
    hitMsg := "Marine weather retrieved from database"
    apiMsg := "Marine weather retrieved from API and saved to database"
    errType := "Marine Weather" }

/-- Configuration of `getTimeZone` (weather.controller.js:513-577). -/
def timezoneCfg : EndpointCfg :=
  { validateExtra := fun _ => .ok ()
    dbQueryOf := timezoneDbQuery
    coll := .weather
    window := CACHE_DURATIONS.timezone
    hitMsg := "Time zone data retrieved from database"
    apiMsg := "Time zone data retrieved from API and saved to database"
    errType := "Time Zone" }

/-- Configuration of `getWeatherAlerts` (weather.controller.js:582-649). -/
def alertsCfg : EndpointCfg :=
  { validateExtra := fun _ => .ok ()
    dbQueryOf := alertsDbQuery
    coll := .weather
    window := CACHE_DURATIONS.alerts
    hitMsg := "Weather alerts retrieved from database"
    apiMsg := "Weather alerts retrieved from API and saved to database"
    errType := "Weather Alerts" }

/-- Configuration of `getAstronomy` (weather.controller.js:654-732).  A
supplied `date` is format-checked; an absent one is not.  The saved document's
individual `astro` sub-fields are extracted from the opaque payload in the JS
and are not separately modelled. -/
def astronomyCfg : EndpointCfg :=
  { validateExtra := fun req =>
      if truthy req.date then validateDate req.date else .ok ()
    dbQueryOf := astronomyDbQuery
    coll := .astronomy
    window := CACHE_DURATIONS.astronomy
    hitMsg := "Astronomy data retrieved from database"
    apiMsg := "Astronomy data retrieved from API and saved to database"
    errType := "Astronomy" }

/-- `getCurrentWeather`. -/
def getCurrentWeather : Env → Req → HResult :=
  cachedWeatherEndpoint currentCfg

/-- `getForecast`. -/
def getForecast : Env → Req → HResult :=
  cachedWeatherEndpoint forecastCfg

/-- `getFutureWeather`. -/
def getFutureWeather : Env → Req → HResult :=
  cachedWeatherEndpoint futureCfg

/-- `getMarineWeather`. -/
def getMarineWeather : Env → Req → HResult :=
  cachedWeatherEndpoint marineCfg

/-- `getTimeZone`. -/
def getTimeZone : Env → Req → HResult :=
  cachedWeatherEndpoint timezoneCfg

/-- `getWeatherAlerts`. -/
def getWeatherAlerts : Env → Req → HResult :=
  cachedWeatherEndpoint alertsCfg

/-- `getAstronomy`. -/
def getAstronomy : Env → Req → HResult :=
  cachedWeatherEndpoint astronomyCfg

/-! ## `getWeatherHistory` (weather.controller.js:1164-1275)

Unlike the seven handlers above, the history endpoint wraps its database read
in a `try` that falls through to the API call (`Continue to API call if
database fails`, line 1228) and its database write in a `try` that only logs
(`Continue even if save fails`, line 1257). -/

/-- `q || location` (line 1170). -/
def historyLocation (req : Req) : Option String :=
  if truthy req.q then req.q else req.location

/-- `dt || date` (line 1172). -/
def historyDate (req : Req) : Option String :=
  if truthy req.dt then req.dt else req.date

/-- `getWeatherHistory`'s `dbQuery` (weather.controller.js:1203-1209). -/
def historyDbQuery (env : Env) (req : Req) : DbQuery :=
  let base : DbQuery :=
    if useCoords req then { latitude := req.lat, longitude := req.lon }
    else
      { city := some (match searchLocation env.geo with
          | l :: _ => l.name
          | [] => (historyLocation req).getD "") }
  { base with type := some "history", date := historyDate req }

/-- `getWeatherHistory`. -/
def getWeatherHistory (env : Env) (req : Req) : HResult :=
  match validateLocation (historyLocation req) req.lat req.lon with
  | .error e => ⟨.err 500 e (errMsg "Weather History"), 0, 0, none, 0⟩
  | .ok _ =>
    match validateDate (historyDate req) with
    | .error e => ⟨.err 500 e (errMsg "Weather History"), 0, 0, none, 0⟩
    | .ok _ =>
      let queryParam :=
        if useCoords req then coordQ req else (historyLocation req).getD ""
      let gc := if needsGeo req then 1 else 0
      if needsGeo req && (searchLocation env.geo).isEmpty then
        ⟨.err 500 "Location not found" (errMsg "Weather History"), gc, 0, none, 0⟩
      else
        let cached :=
          if env.dbFindOk then
            findInDatabase env.dbHistory env.now (historyDbQuery env req)
              CACHE_DURATIONS.history
          else none
        match cached with
        | some r =>
          ⟨.ok "Weather history retrieved from database" r.data, gc, 0, none, 0⟩
        | none =>
          match env.api with
          | .apiOk p =>
            ⟨.ok "Weather history retrieved from API and saved to database" p,
              gc, 1, some queryParam, 1⟩
          | .apiErr st m =>
            ⟨.err (statusOr st) m (errMsg "Weather History"), gc, 1,
              some queryParam, 0⟩

/-! ## Seven-day forecast composition (weather.controller.js:737-1159) -/

/-- Sum of a list of rationals. -/
def qsum (xs : List ℚ) : ℚ :=
  xs.foldl (· + ·) 0

/-- `Math.max(...)` over a non-empty list (head-seeded fold). -/
def qmaxList (x : ℚ) (xs : List ℚ) : ℚ :=
  xs.foldl max x

/-- `Math.min(...)` over a non-empty list (head-seeded fold). -/
def qminList (x : ℚ) (xs : List ℚ) : ℚ :=
  xs.foldl min x

/-- The trend statistics computed from `last5Days`
(weather.controller.js:879-887). -/
structure Stats where
  avgTemp : ℚ
  tempRange : ℚ
  avgHumidity : ℚ
  avgWind : ℚ
deriving DecidableEq, Repr

/-- `processedData.forecast.slice(-5)`. -/
def lastFive (forecast : List FDay) : List FDay :=
  forecast.drop (forecast.length - 5)

/-- The averages and the temperature range over the observed days.  On an
empty list the JS `reduce` with no initial value throws, which the enclosing
`catch (geminiError)` absorbs: that case is `none`. -/
def computeStats : List FDay → Option Stats
  | [] => none
  | d :: ds =>
    let temps := (d :: ds).map fun x => x.main.temp
    let hums := (d :: ds).map fun x => x.main.humidity
    let winds := (d :: ds).map fun x => x.wind.speed
    let n : ℚ := temps.length
    some
      { avgTemp := qsum temps / n
        tempRange := qmaxList d.main.temp temps - qminList d.main.temp temps
        avgHumidity := qsum hums / n
        avgWind := qsum winds / n }

/-- The fixed weather-category vocabulary with each category's icon and
Vietnamese description (`weatherMapping`, weather.controller.js:897-922). -/
def weatherMapping (main : String) : Option (String × String) :=
  if main = "Clear" then some ("01d", "trời quang")
  else if main = "Clouds" then some ("02d", "mây rải rác")
  else if main = "Rain" then some ("10d", "mưa nhẹ")
  else if main = "Thunderstorm" then some ("11d", "dông")
  else if main = "Snow" then some ("13d", "tuyết")
  else if main = "Mist" then some ("50d", "sương mù")
  else none

/-- `validatePrediction(day, dayNum)` (weather.controller.js:1005-1046):
temperature within `avgTemp ± tempRange`, humidity within
`[max(0, avgHumidity−20), min(100, avgHumidity+20)]`, wind speed within
`[max(0, avgWind−5), avgWind+5]`, and the weather category in the fixed
vocabulary.  A day with an empty `weather` array makes `day.weather[0].main`
throw in the JS, absorbed by the same `catch` that discards the prediction, so
it is treated as rejected here. -/
def validatePrediction (st : Stats) (day : PredDay) : Bool :=
  match day.weather.head? with
  | none => false
  | some w =>
    if day.main.temp < st.avgTemp - st.tempRange
        || day.main.temp > st.avgTemp + st.tempRange then false
    else if day.main.humidity < max 0 (st.avgHumidity - 20)
        || day.main.humidity > min 100 (st.avgHumidity + 20) then false
    else if day.wind.speed < max 0 (st.avgWind - 5)
        || day.wind.speed > st.avgWind + 5 then false
    else (weatherMapping w.main).isSome

/-- The icon/description rewrite applied to an accepted predicted day
(weather.controller.js:1056-1069) followed by the push onto
`processedData.forecast` (1080-1119); `Number(...)` coercions are identities
on the rational model. -/
def predToFDay (day : PredDay) : FDay :=
  let weather :=
    match day.weather with
    | [] => []
    | w :: rest =>
      { w with
        icon := ((weatherMapping w.main).getD ("", "")).1
        description := ((weatherMapping w.main).getD ("", "")).2 } :: rest
  { dt_txt := day.date
    main := day.main
    weather := weather
    wind := day.wind
    pop := day.pop }

/-- `notice` when both predicted days were accepted (line 1121-1122). -/
def sevenDayNotice : String :=
  "Dự báo 7 ngày bao gồm: 5 ngày từ OpenWeatherMap API và 2 ngày được dự đoán bởi AI."

/-- `notice` when the prediction is absent or rejected (line 1124-1125). -/
def fiveDayNotice : String :=
  "Dự báo 5 ngày từ OpenWeatherMap API (không có dự đoán AI do không đảm bảo độ chính xác)."

/-- The prediction stage of `getSevenDayForecast`
(weather.controller.js:875-1126): compute the trend statistics, validate both
predicted days, and either append both or drop both; set `notice`
accordingly.  `gemini = none` stands for every failure of the AI path (API
error, no JSON in the text, unparseable or mis-shaped JSON), all of which the
`catch (geminiError)` turns into `predictedData = null`. -/
def sevenDayCompose (forecast : List FDay) (gemini : Option Prediction) :
    List FDay × String :=
  match computeStats (lastFive forecast) with
  | none => (forecast, fiveDayNotice)
  | some st =>
    match gemini with
    | none => (forecast, fiveDayNotice)
    | some pred =>
      if validatePrediction st pred.day6 && validatePrediction st pred.day7 then
        (forecast ++ [predToFDay pred.day6, predToFDay pred.day7], sevenDayNotice)
      else (forecast, fiveDayNotice)

/-- `getSevenDayForecast`'s `dbQuery` (weather.controller.js:764-769). -/
def sevenDbQuery (env : Env) (req : Req) : DbQuery :=
  { locQuery env req with type := some "seven_day_forecast" }

/-- The freshness window the seven-day lookup passes to `findInDatabase` —
the source passes `CACHE_DURATIONS.forecast` (weather.controller.js:774). -/
def sevenDayWindow : Nat :=
  CACHE_DURATIONS.forecast

/-- `getSevenDayForecast` (weather.controller.js:737-1159).  Every failure
inside the inner `try` is rethrown as
`new Error(apiError.response?.data?.message || "Failed to fetch weather
data")`, and the outer `catch` answers 500 with the fixed `error` field
`Failed to fetch weather data`, so an invalid OWM body and a failed database
write both surface that text.  The `OPENWEATHER_API_KEY` presence check always
passes (the constant has a hard-coded default). -/
def getSevenDayForecast (env : Env) (req : Req) : HResult :=
  if !truthy req.location && (!truthy req.lat || !truthy req.lon) then
    ⟨.err 500 "Failed to fetch weather data"
      "Location or coordinates (lat,lon) is required", 0, 0, none, 0⟩
  else
    let queryParam := if useCoords req then coordQ req else req.location.getD ""
    let gc := if needsGeo req then 1 else 0
    if needsGeo req && (searchLocation env.geo).isEmpty then
      ⟨.err 500 "Failed to fetch weather data" "Location not found", gc, 0, none, 0⟩
    else if !env.dbFindOk then
      ⟨.err 500 "Failed to fetch weather data" dbErrorMessage, gc, 0, none, 0⟩
    else
      match findInDatabase env.dbWeather env.now (sevenDbQuery env req)
          sevenDayWindow with
      | some r =>
        ⟨.ok "7-day forecast retrieved from database" r.data, gc, 0, none, 0⟩
      | none =>
        match env.owm with
        | .owmErr m =>
          ⟨.err 500 "Failed to fetch weather data"
            (m.getD "Failed to fetch weather data"), gc, 1, some queryParam, 0⟩
        | .owmInvalid =>
          ⟨.err 500 "Failed to fetch weather data" "Failed to fetch weather data",
            gc, 1, some queryParam, 0⟩
        | .owmOk cityName days =>
          let (fc, notice) := sevenDayCompose days env.gemini
          let data : SevenDayData :=
            { locName := cityName, forecast := fc, notice := some notice }
          if env.saveOk then
            ⟨.ok "7-day forecast retrieved successfully" (.seven data), gc, 1,
              some queryParam, 1⟩
          else
            ⟨.err 500 "Failed to fetch weather data" "Failed to fetch weather data",
              gc, 1, some queryParam, 1⟩

/-! ## Question resolver (chat.controller.js — `analyzeQuestion` /
`manualAnalyzeQuestion`, weather.controller.js:1970-2115 in the packed file)

Calendar dates the fallback computes (`toISOString().split("T")[0]` of today
minus N days) are carried as epoch-day integers; `today` is the current
epoch day.  The resolver never inspects a `time.value`, so AI-supplied values
are carried through the same field.  (The intent structures `TimeInfo`,
`ParsedAnalysis` and `Analysis` are declared with the data model above, since
persisted chat records embed them.) -/

/-- A whitespace character (`\s` for the pattern alphabet in use). -/
def isWsChar (c : Char) : Bool :=
  c = ' ' || c = '\t' || c = '\n' || c = '\r'

/-- One token of a history pattern: a literal, one-or-more whitespace (`\s+`),
or a digit group `\d{lo,hi}` (`hi = none` is unbounded).  The literal
following a digit group is never itself a digit, so the capped-greedy match
below coincides with the regex's backtracking behaviour. -/
inductive Tok where
  | lit (s : String)
  | ws
  | num (lo : Nat) (hi : Option Nat)
deriving Repr

/-- Anchored match of a token list, returning the captured digit groups (in
order) and the number of characters consumed. -/
def matchHere : List Tok → List Char → Option (List Nat × Nat)
  | [], _ => some ([], 0)
  | .lit s :: ts, cs =>
    let l := s.toList
    if l.isPrefixOf cs then
      (matchHere ts (cs.drop l.length)).map fun p => (p.1, p.2 + l.length)
    else none
  | .ws :: ts, cs =>
    let sp := cs.takeWhile isWsChar
    if sp.isEmpty then none
    else (matchHere ts (cs.drop sp.length)).map fun p => (p.1, p.2 + sp.length)
  | .num lo hi :: ts, cs =>
    let ds := (takeDigits cs).1
    let ds := ds.take (match hi with | none => ds.length | some h => h)
    if ds.length < lo then none
    else
      (matchHere ts (cs.drop ds.length)).map fun p =>
        (natVal ds :: p.1, p.2 + ds.length)

/-- Leftmost match of a token list anywhere in the text, returning the
captures and the matched span (`match[0]`). -/
def searchMatch (ts : List Tok) : List Char → Option (List Nat × List Char)
  | [] => (matchHere ts []).map fun p => (p.1, [])
  | c :: t =>
    match matchHere ts (c :: t) with
    | some p => some (p.1, (c :: t).take p.2)
    | none => searchMatch ts t

/-- The four `historyPatterns` (chat controller): `thời tiết N ngày trước`,
`thời tiết hôm qua`, `thời tiết N ngày qua`, `thời tiết ngày dd/mm/yyyy`. -/
def historyPatterns : List (List Tok) :=
  [ [.lit "thời tiết", .ws, .num 1 none, .ws, .lit "ngày", .ws, .lit "trước"],
    [.lit "thời tiết", .ws, .lit "hôm", .ws, .lit "qua"],
    [.lit "thời tiết", .ws, .num 1 none, .ws, .lit "ngày", .ws, .lit "qua"],
    [.lit "thời tiết", .ws, .lit "ngày", .ws, .num 1 (some 2), .lit "/",
      .num 1 (some 2), .lit "/", .num 4 (some 4)] ]

/-- The first history pattern (in declaration order) matching the question. -/
def firstHistoryMatch (cs : List Char) : Option (List Nat × List Char) :=
  historyPatterns.foldl
    (fun acc ts => match acc with
      | some r => some r
      | none => searchMatch ts cs) none

/-- The initial analysis object of `manualAnalyzeQuestion`. -/
def defaultTime : TimeInfo :=
  { type := some "current", value := none, period := none, isHistory := false }

/-- The fully-populated `current`-type default intent. -/
def currentDefaultAnalysis : Analysis :=
  { location := none, time := some defaultTime, type := "current", details := [] }

/-- `manualAnalyzeQuestion(question)` — the deterministic rule-based fallback
(lowercasing via `jsToLower`, see there).  The `dd/mm/yyyy` capture branch
of the source (`else if (match[1] && match[2] && match[3])`) is dead code:
whenever those captures exist the first branch `if (match[1])` has already
consumed them as a days-ago count, which the embedding reproduces. -/
def manualAnalyzeQuestion (question : String) (today : Int) : Analysis :=
  let nq := jsToLower question
  let base : Analysis :=
    { location := none, time := some defaultTime, type := "current", details := [] }
  let afterHistory : Analysis :=
    match firstHistoryMatch nq.toList with
    | none => base
    | some (caps, matched) =>
      let value : Option Int :=
        match caps.head? with
        | some n => some (today - (n : Int))
        | none =>
          if containsSub matched "hôm qua".toList then some (today - 1) else none
      { base with
        type := "history"
        time := some
          { type := some "history", value := value, period := none,
            isHistory := true } }
  if strIncludes nq "dự báo" || strIncludes nq "ngày mai"
      || strIncludes nq "tuần tới" then
    { afterHistory with type := "forecast" }
  else if strIncludes nq "biển" || strIncludes nq "sóng" then
    { afterHistory with type := "marine" }
  else if strIncludes nq "mặt trời" || strIncludes nq "mặt trăng" then
    { afterHistory with type := "astronomy" }
  else if strIncludes nq "cảnh báo" || strIncludes nq "bão" then
    { afterHistory with type := "alerts" }
  else if strIncludes nq "múi giờ" || strIncludes nq "giờ địa phương" then
    { afterHistory with type := "timezone" }
  else afterHistory

/-- No history pattern and no keyword matches the question: the fallback
returns the untouched default. -/
def manualNoMatch (question : String) : Bool :=
  let nq := jsToLower question
  (firstHistoryMatch nq.toList).isNone &&
  !(strIncludes nq "dự báo" || strIncludes nq "ngày mai"
    || strIncludes nq "tuần tới") &&
  !(strIncludes nq "biển" || strIncludes nq "sóng") &&
  !(strIncludes nq "mặt trời" || strIncludes nq "mặt trăng") &&
  !(strIncludes nq "cảnh báo" || strIncludes nq "bão") &&
  !(strIncludes nq "múi giờ" || strIncludes nq "giờ địa phương")

/-- What reaches the `analysis` variable of `analyzeQuestion`: either a
successfully parsed JSON object, or `failed` — any throw on the way there
(Gemini API error or uninitialized model, no `{...}` span in the text, or
`JSON.parse` failure), all of which land in the `catch` that delegates to
`manualAnalyzeQuestion`. -/
inductive GeminiOutcome where
  | failed
  | parsed (a : ParsedAnalysis)
deriving Repr

/-- The `validTypes` array. -/
def validTypes : List String :=
  ["current", "forecast", "history", "future", "marine", "astronomy",
   "timezone", "alerts"]

/-- `validTypes.includes(analysis.type)` — a missing `type` is not allowed. -/
def typeAllowed : Option String → Bool
  | some t => validTypes.contains t
  | none => false

/-- `analysis.time?.isHistory` truthiness. -/
def timeIsHistory (t : Option TimeInfo) : Bool :=
  match t with
  | some ti => ti.isHistory
  | none => false

/-- `analysis.time?.type === "range" || analysis.time?.type === "future"`. -/
def timeRangeOrFuture (t : Option TimeInfo) : Bool :=
  match t with
  | some ti => ti.type == some "range" || ti.type == some "future"
  | none => false

/-- The deterministic reclassification applied to an invalid `type`. -/
def reclassifyType (a : ParsedAnalysis) : String :=
  if timeIsHistory a.time then "history"
  else if timeRangeOrFuture a.time then "forecast"
  else "current"

/-- `analyzeQuestion(question)`: accept a parsed analysis (reclassifying an
invalid `type`), or fall back to the rule-based analyzer on any failure. -/
def analyzeQuestion (g : GeminiOutcome) (question : String) (today : Int) :
    Analysis :=
  match g with
  | .failed => manualAnalyzeQuestion question today
  | .parsed a =>
    let t :=
      match a.type with
      | some t => if validTypes.contains t then t else reclassifyType a
      | none => reclassifyType a
    { location := a.location, time := a.time, type := t, details := a.details }

/-! ## The axios retry interceptor (weather.controller.js:53-72, 144-160)

`axios.defaults`: timeout 10 s, `retry = 3`, `retryDelay = 1000`; the response
interceptor re-issues any failed request — it inspects only
`config.retryCount`, never the kind of error — until `retryCount` reaches
`config.retry`, sleeping `retryDelay` before each retry. -/

/-- Outcome of one physical HTTP attempt: 2xx, a transport failure (network
error or the 10-second timeout), or a non-2xx response with its status. -/
inductive AttemptOutcome where
  | success (data : Payload)
  | transportErr (msg : String)
  | appErr (status : Nat) (msg : String)
deriving DecidableEq, Repr

/-- Whether the attempt rejects (enters the interceptor's error handler). -/
def isErr : AttemptOutcome → Bool
  | .success _ => false
  | .transportErr _ => true
  | .appErr _ _ => true

/-- What a request ultimately did: final outcome, number of physical attempts
and total milliseconds slept between them. -/
structure RetryResult where
  outcome : AttemptOutcome
  attempts : Nat
  delayMs : Nat
deriving DecidableEq, Repr

/-- The interceptor loop: `oracle i` is the outcome of physical attempt `i`
(0-based, equal to `config.retryCount` at the time of the attempt).  `fuel`
bounds the recursion; `axiosRequest` supplies `fuel = retry`, making the
fuel-exhaustion branch unreachable. -/
def axiosLoop (oracle : Nat → AttemptOutcome) (retry retryDelay : Nat) :
    Nat → Nat → RetryResult
  | fuel, rc =>
    match oracle rc with
    | .success p => ⟨.success p, rc + 1, rc * retryDelay⟩
    | e =>
      if retry ≤ rc then ⟨e, rc + 1, rc * retryDelay⟩
      else
        match fuel with
        | 0 => ⟨e, rc + 1, rc * retryDelay⟩
        | fuel' + 1 => axiosLoop oracle retry retryDelay fuel' (rc + 1)

/-- A request issued with `retry` retries and `retryDelay` ms between
attempts, as `callWeatherAPI` does with 3 and 1000. -/
def axiosRequest (oracle : Nat → AttemptOutcome) (retry retryDelay : Nat) :
    RetryResult :=
  axiosLoop oracle retry retryDelay retry 0

/-! ## Notification route handlers
(weather.controller.js:1353-1457, 1462-1535, 1540-1589, 1594-1775) -/

/-- The `data.alerts?.alert` field of the alerts response: missing, a single
alert object, or an array (the handlers normalize all three,
weather.controller.js:1405-1409). -/
inductive AlertField where
  | one (a : Alert)
  | many (as : List Alert)
deriving DecidableEq, Repr

/-- Outcome of the alerts-endpoint call the notification handlers issue:
the error `handleError` receives, or a response carrying the alert field and
the opaque `data.location`. -/
inductive AlertsOutcome where
  | alertsErr (status : Option Nat) (msg : String)
  | alertsOk (alert : Option AlertField) (location : Nat)
deriving DecidableEq, Repr

/-- `data.alerts?.alert ? (Array.isArray(...) ? ... : [...]) : []`. -/
def alertsList : Option AlertField → List Alert
  | none => []
  | some (.one a) => [a]
  | some (.many as) => as

/-- The outcomes the notification handlers consume on top of `Env`:
`alertsApi` is the upstream alerts call; `translate i` is the parsed
translation of the `i`-th alert handed to Gemini (`none` = that call failed
or returned no parseable JSON, so the alert is kept untranslated; the detail
handler translates its single found alert as index 0); `addInfo` is the
parsed risk-analysis supplement (`none` = failure, triggering the fixed
default block). -/
structure NotifEnv where
  base : Env
  alertsApi : AlertsOutcome
  translate : Nat → Option Translation
  addInfo : Option AddInfo

/-- `translateAlert` (weather.controller.js:1312-1348): overwrite
`headline`/`desc`/`instruction` from the parsed translation; on any failure
return the alert unchanged. -/
def translateAlertWith (a : Alert) : Option Translation → Alert
  | none => a
  | some t =>
    { a with headline := t.headline, desc := t.desc,
             instruction := t.instruction }

/-- The per-alert formatting of the notifications response
(weather.controller.js:1415-1426). -/
def toNotifAlert (a : Alert) : NotifAlert :=
  { id := a.alert_id, type := a.alert_type, severity := a.severity,
    title := a.headline, description := a.desc, area := a.area,
    startTime := a.effective, endTime := a.expires, source := a.source,
    instructions := a.instruction }

/-- `getWeatherNotifications`' `dbQuery` (weather.controller.js:1376-1379):
`type: "notifications"` with coordinates or the alerts-style `cityName`. -/
def notifDbQuery (ne : NotifEnv) (req : Req) : DbQuery :=
  if useCoords req then
    { type := some "notifications", latitude := req.lat, longitude := req.lon }
  else { type := some "notifications",
         city := some (alertsCityName ne.base req) }

/-- `getWeatherNotifications` (weather.controller.js:1353-1457).  The
`severity`/`type`/`area` filters are forwarded upstream unmodelled (only the
`q` parameter is recorded in `apiQuery`). -/
def getWeatherNotifications (ne : NotifEnv) (req : Req) : HResult :=
  match validateLocation req.location req.lat req.lon with
  | .error e => ⟨.err 500 e (errMsg "Weather Notifications"), 0, 0, none, 0⟩
  | .ok _ =>
    let queryParam := if useCoords req then coordQ req else req.location.getD ""
    let gc := if needsGeo req then 1 else 0
    if needsGeo req && (searchLocation ne.base.geo).isEmpty then
      ⟨.err 500 "Location not found" (errMsg "Weather Notifications"), gc, 0,
        none, 0⟩
    else if !ne.base.dbFindOk then
      ⟨.err 500 dbErrorMessage (errMsg "Weather Notifications"), gc, 0, none, 0⟩
    else
      match findInDatabase ne.base.dbWeather ne.base.now (notifDbQuery ne req)
          CACHE_DURATIONS.alerts with
      | some r =>
        ⟨.ok "Weather notifications retrieved from database" r.data, gc, 0,
          none, 0⟩
      | none =>
        match ne.alertsApi with
        | .alertsErr st m =>
          ⟨.err (statusOr st) m (errMsg "Weather Notifications"), gc, 1,
            some queryParam, 0⟩
        | .alertsOk alertField loc =>
          let alerts := alertsList alertField
          let translated :=
            alerts.enum.map fun p => translateAlertWith p.2 (ne.translate p.1)
          let notifAlerts := translated.map toNotifAlert
          let data : NotifData :=
            { alerts := notifAlerts, total := notifAlerts.length,
              location := loc }
          if ne.base.saveOk then
            ⟨.ok "Weather notifications retrieved from API and saved to database"
              (.notif data), gc, 1, some queryParam, 1⟩
          else
            ⟨.err 500 dbErrorMessage (errMsg "Weather Notifications"), gc, 1,
              some queryParam, 1⟩

/-- `getWeatherNotificationDetail`'s `dbQuery`
(weather.controller.js:1626-1630). -/
def detailDbQuery (ne : NotifEnv) (req : Req) : DbQuery :=
  if useCoords req then
    { type := some "notification_detail", alertId := req.alertId,
      latitude := req.lat, longitude := req.lon }
  else
    { type := some "notification_detail", alertId := req.alertId,
      city := some (alertsCityName ne.base req) }

/-- The fixed default `additional_info` block
(weather.controller.js:1737-1752), parameterized by the translated alert
whose `effective`/`expires` it copies. -/
def defaultAddInfo (a : Alert) : AddInfo :=
  { risk_level := "Không xác định"
    risk_description := "Không thể phân tích mức độ nguy hiểm"
    prevention_measures := ["Không có thông tin phòng chống"]
    affected_groups := ["Không có thông tin về đối tượng ảnh hưởng"]
    high_risk_areas := ["Không có thông tin về khu vực nguy hiểm"]
    impact_start := a.effective
    impact_peak := some "Không xác định"
    impact_end := a.expires
    reliable_sources := ["Cơ quan khí tượng thủy văn"]
    emergency_contacts := ["112 - Cấp cứu", "114 - Cứu hỏa"] }

/-- `getWeatherNotificationDetail` (weather.controller.js:1594-1775). -/
def getWeatherNotificationDetail (ne : NotifEnv) (req : Req) : HResult :=
  if !truthy req.alertId then
    ⟨.err 400 "Alert ID is required" "Vui lòng cung cấp ID cảnh báo", 0, 0,
      none, 0⟩
  else
    match validateLocation req.location req.lat req.lon with
    | .error e =>
      ⟨.err 500 e (errMsg "Weather Notification Detail"), 0, 0, none, 0⟩
    | .ok _ =>
      let queryParam :=
        if useCoords req then coordQ req else req.location.getD ""
      let gc := if needsGeo req then 1 else 0
      if needsGeo req && (searchLocation ne.base.geo).isEmpty then
        ⟨.err 500 "Location not found" (errMsg "Weather Notification Detail"),
          gc, 0, none, 0⟩
      else if !ne.base.dbFindOk then
        ⟨.err 500 dbErrorMessage (errMsg "Weather Notification Detail"), gc, 0,
          none, 0⟩
      else
        match findInDatabase ne.base.dbWeather ne.base.now
            (detailDbQuery ne req) CACHE_DURATIONS.alerts with
        | some r =>
          ⟨.ok "Weather notification detail retrieved from database" r.data,
            gc, 0, none, 0⟩
        | none =>
          match ne.alertsApi with
          | .alertsErr st m =>
            ⟨.err (statusOr st) m (errMsg "Weather Notification Detail"), gc,
              1, some queryParam, 0⟩
          | .alertsOk alertField _ =>
            match (alertsList alertField).find?
                (fun a => a.alert_id == req.alertId) with
            | none =>
              ⟨.err 404 "Alert not found" "Không tìm thấy thông báo với ID này",
                gc, 1, some queryParam, 0⟩
            | some alert =>
              let translated := translateAlertWith alert (ne.translate 0)
              let info :=
                match ne.addInfo with
                | some i => i
                | none => defaultAddInfo translated
              let detailed : DetailedAlert :=
                { base := toNotifAlert translated, additional_info := info }
              if ne.base.saveOk then
                ⟨.ok "Weather notification detail retrieved successfully"
                  (.detail detailed), gc, 1, some queryParam, 1⟩
              else
                ⟨.err 500 dbErrorMessage (errMsg "Weather Notification Detail"),
                  gc, 1, some queryParam, 1⟩

/-- The JSON body of the subscribe/unsubscribe routes (`types` is an opaque
pass-through value, carried as a string). -/
structure SubBody where
  deviceId : Option String := none
  location : Option String := none
  severity : Option String := none
  types : Option String := none
  fcmToken : Option String := none
deriving DecidableEq, Repr

/-- `subscribeToAlerts` (weather.controller.js:1462-1535): required params,
geocode the location (any failure → 400 `Invalid location`), optional
severity whitelist, then one `Weather.create` of the subscription record. -/
def subscribeToAlerts (env : Env) (body : SubBody) : HResult :=
  if !truthy body.deviceId || !truthy body.location then
    ⟨.err 400 "Device ID and location are required"
      "Vui lòng cung cấp ID thiết bị và địa điểm", 0, 0, none, 0⟩
  else
    match searchLocation env.geo with
    | [] => ⟨.err 400 "Invalid location" "Địa điểm không hợp lệ", 1, 0, none, 0⟩
    | l :: _ =>
      if truthy body.severity &&
          !(["minor", "moderate", "severe", "extreme"].contains
            (body.severity.getD "")) then
        ⟨.err 400 "Invalid severity level" "Mức độ cảnh báo không hợp lệ", 1,
          0, none, 0⟩
      else if env.saveOk then
        ⟨.ok "Đăng ký nhận thông báo thành công"
          (.sub (body.deviceId.getD "") l.name body.severity body.types), 1, 0,
          none, 1⟩
      else
        ⟨.err 500 "Failed to subscribe to alerts"
          "Có lỗi xảy ra khi đăng ký nhận thông báo", 1, 0, none, 1⟩

/-- `unsubscribeFromAlerts` (weather.controller.js:1540-1589): one
`updateMany` soft-deleting the device's active subscriptions; 404 when
nothing matched.  (The updated store itself is not returned; only the
response and effect counts are.) -/
def unsubscribeFromAlerts (env : Env) (body : SubBody) : HResult :=
  if !truthy body.deviceId then
    ⟨.err 400 "Device ID is required" "Vui lòng cung cấp ID thiết bị", 0, 0,
      none, 0⟩
  else if !env.saveOk then
    ⟨.err 500 "Failed to unsubscribe from alerts"
      "Có lỗi xảy ra khi hủy đăng ký thông báo", 0, 0, none, 1⟩
  else
    let matched := env.dbWeather.filter fun r =>
      r.type = some "alert_subscription" && r.deviceId == body.deviceId &&
        r.active = some true
    if matched.length = 0 then
      ⟨.err 404 "No active subscription found"
        "Không tìm thấy đăng ký thông báo nào", 0, 0, none, 1⟩
    else ⟨.ok "Hủy đăng ký thông báo thành công" .empty, 0, 0, none, 1⟩

/-! ## Chat route handlers (chat.controller.js — `processWeatherQuestion`,
`handleChat`, `getChatHistory`) -/

/-- Outcome of the generative answer step (`generateWithRetry` plus the
message inspection at weather.controller.js:2838-2847): a produced text, an
error whose message contains `GoogleGenerativeAI Error` (→ the fixed apology),
or any other failure (→ the deterministic fallback). -/
inductive ChatAnswer where
  | aiOk (text : String)
  | aiGoogleErr
  | aiOtherErr
deriving DecidableEq, Repr

/-- The JSON body of `POST /chat`. -/
structure ChatBody where
  question : Option String := none
  city : Option String := none
  sessionId : Option String := none
deriving DecidableEq, Repr

/-- What one chat request consumes on top of `Env`: the AI analysis outcome,
today's epoch day, the outcome of each swallowed per-report fetch (the opaque
body's id, or `none` when that fetch failed), the generative-answer outcome,
the text `generateFallbackAnswer` would assemble (a deterministic function of
the question and of upstream JSON bodies this model holds opaque — it reads
no module state, in particular not the in-memory cache map), a fresh
`Date.now()` session id, and the chat collection. -/
structure ChatEnv where
  base : Env
  analysisOutcome : GeminiOutcome
  todayEpoch : Int
  fHistory : Option Nat
  fCurrent : Option Nat
  fForecast : Option Nat
  fAstronomy : Option Nat
  fMarine : Option Nat
  fTimezone : Option Nat
  fAlerts : Option Nat
  answer : ChatAnswer
  fallbackText : String
  freshSessionId : String
  dbChat : List ChatDoc

/-- The message of a raised `TypeError`, opaque to the controller, which only
forwards it (`error.message` in handleChat's catch). -/
def jsTypeErrorMessage : String := "TypeError"

/-- The normalized `analysis` block persisted with a chat record
(weather.controller.js:2850-2865); the resolver's `type` is always a
non-empty string here, so only the `daily` remap can fire. -/
def chatAnalysisData (a : Analysis) : AnalysisData :=
  { location := a.location
    timeType := (a.time.bind TimeInfo.type).getD "current"
    timeValue := a.time.bind TimeInfo.value
    timePeriod := a.time.bind TimeInfo.period
    isHistory := timeIsHistory a.time
    type := if a.type = "daily" then "current" else a.type
    details := a.details }

/-- `handleChat` + `processWeatherQuestion`
(weather.controller.js:2621-2887, 2936-2966).  Notes tied to the source:
the future fetch at 2760-2777 never fires because `weatherData.targetDate -
new Date()` subtracts a `Date` from a string, giving `NaN`, and `NaN > 14` is
false; a parsed analysis lacking `time` makes `analysis.time.value` (2666)
raise, which handleChat's catch turns into a 500; the relative-string time
values (`hôm qua` etc.) the AI may return are normalized to concrete dates,
which this model's epoch-day representation already is.  `upstreamCalls`
counts the per-report weather fetches (history when requested, plus current,
forecast, astronomy, marine, timezone and alerts); `apiQuery` is `none`
because several distinct queries are issued. -/
def handleChat (ce : ChatEnv) (body : ChatBody) : HResult :=
  if !truthy body.question then
    ⟨.err 400 "Question is required" "Vui lòng nhập câu hỏi của bạn.", 0, 0,
      none, 0⟩
  else
    let question := body.question.getD ""
    let analysis := analyzeQuestion ce.analysisOutcome question ce.todayEpoch
    let resolved : Option GeoLoc × Option String × Nat :=
      if truthy analysis.location then
        match searchLocation ce.base.geo with
        | l :: _ => (some l, some l.name, 1)
        | [] => (none, body.city, 1)
      else if truthy body.city then
        match searchLocation ce.base.geo with
        | l :: _ => (some l, some l.name, 1)
        | [] => (none, body.city, 1)
      else (none, body.city, 0)
    let location := resolved.1
    let city := resolved.2.1
    let gc := resolved.2.2
    if !location.isSome && !truthy city then
      ⟨.ok "Chat processed successfully" .empty, gc, 0, none, 0⟩
    else
      match analysis.time with
      | none =>
        ⟨.err 500 jsTypeErrorMessage
          "Có lỗi xảy ra khi xử lý câu hỏi của bạn. Vui lòng thử lại sau.", gc,
          0, none, 0⟩
      | some ti =>
        let targetDate := ti.value.getD ce.todayEpoch
        let history := if ti.isHistory then ce.fHistory else none
        let calls := (if ti.isHistory then 1 else 0) + 6
        if ce.fCurrent.isNone && ce.fForecast.isNone then
          ⟨.ok "Chat processed successfully" .empty, gc, calls, none, 0⟩
        else
          let answer :=
            match ce.answer with
            | .aiOk text => text
            | .aiGoogleErr =>
              "Xin lỗi, hiện tại có vấn đề với kết nối đến dịch vụ dự báo thời tiết. Vui lòng thử lại sau vài phút."
            | .aiOtherErr => ce.fallbackText
          let locName :=
            match location with
            | some l => l.name
            | none => city.getD ""
          let snapshot : ChatSnapshot :=
            { locName := locName
              current := ce.fCurrent
              forecast := ce.fForecast
              history := history
              astronomy := ce.fAstronomy
              future := none
              marine := ce.fMarine
              timezone := ce.fTimezone
              alerts := ce.fAlerts
              analysis := analysis
              targetDate := targetDate }
          let doc : ChatDoc :=
            { question := question
              answer := answer
              weatherData := some snapshot
              timestamp := ce.base.now
              sessionId :=
                if truthy body.sessionId then body.sessionId.getD ""
                else ce.freshSessionId
              location :=
                if !locName.isEmpty then some locName
                else if truthy city then city else none
              date := some targetDate
              type := if analysis.type = "daily" then "current"
                else analysis.type
              analysis := some (chatAnalysisData analysis) }
          if ce.base.saveOk then
            ⟨.ok "Chat processed successfully" (.chatDoc doc), gc, calls, none,
              1⟩
          else
            ⟨.err 500 dbErrorMessage
              "Có lỗi xảy ra khi xử lý câu hỏi của bạn. Vui lòng thử lại sau.",
              gc, calls, none, 1⟩

/-- Insertion into a timestamp-descending list (Mongo's order for equal
timestamps is unspecified; this keeps the earlier-listed record first). -/
def chatInsertDesc (d : ChatDoc) : List ChatDoc → List ChatDoc
  | [] => [d]
  | x :: xs =>
    if x.timestamp ≤ d.timestamp then d :: x :: xs
    else x :: chatInsertDesc d xs

/-- `sort({timestamp: -1})`. -/
def chatSortDesc : List ChatDoc → List ChatDoc
  | [] => []
  | d :: ds => chatInsertDesc d (chatSortDesc ds)

/-- `getChatHistory` (weather.controller.js:2973-3000): newest-first, capped
at 50, for the requested session. -/
def getChatHistory (ce : ChatEnv) (sessionId : Option String) : HResult :=
  if !truthy sessionId then
    ⟨.err 400 "Session ID is required" "Vui lòng cung cấp ID phiên chat.", 0,
      0, none, 0⟩
  else if !ce.base.dbFindOk then
    ⟨.err 500 dbErrorMessage
      "Có lỗi xảy ra khi lấy lịch sử chat. Vui lòng thử lại sau.", 0, 0, none,
      0⟩
  else
    let docs :=
      (chatSortDesc (ce.dbChat.filter
        fun d => d.sessionId == sessionId.getD "")).take 50
    ⟨.ok "Chat history retrieved successfully" (.chatList docs), 0, 0, none, 0⟩

/-! ## Concrete fixtures (used by witnesses and counterexamples) -/

/-- A geocoding feature for Hanoi as Geoapify would return it. -/
def geoHanoi : GeoFeature :=
  ⟨⟨"Hà Nội, Vietnam", some "Hà Nội", none, some "Vietnam", "21.03", "105.85"⟩⟩

/-- A baseline environment: geocoding finds Hanoi, the weather API succeeds,
the store works, all collections empty. -/
def envBase : Env :=
  { geo := .geoOk (some [geoHanoi])
    api := .apiOk (.raw 7)
    owm := .owmOk (some "Hanoi") []
    gemini := none
    dbFindOk := true
    saveOk := true
    dbWeather := []
    dbMarine := []
    dbAstronomy := []
    dbHistory := []
    now := 1000
    todayIso := "2024-05-01"
    memCache := [] }

/-- A name-only request. -/
def reqName : Req :=
  { location := some "Hanoi" }

/-- A coordinates-only request. -/
def reqCoord : Req :=
  { lat := some "21.03", lon := some "105.85" }

/-- A history request using the `q`/`dt` aliases. -/
def reqHist : Req :=
  { q := some "Hanoi", dt := some "2024-05-01" }

/-- A fresh persisted current-weather record for Hanoi. -/
def wrecCur : DbRecord :=
  { type := some "current", city := some "Hà Nội, Vietnam", time := 1000,
    data := .raw 42 }

/-- The baseline environment with that record persisted. -/
def envHit : Env :=
  { envBase with dbWeather := [wrecCur] }

/-- One observed forecast day (25 °C, 70 % humidity, 3 m/s). -/
def obsDay : FDay :=
  { dt_txt := "2024-05-01"
    main := { temp := 25, feels_like := 25, temp_min := 24, temp_max := 26,
              humidity := 70 }
    weather := [⟨"Clear", "trời quang", "01d"⟩]
    wind := { speed := 3, deg := 180 }
    pop := 0 }

/-- Five identical observed days. -/
def obs5 : List FDay :=
  [obsDay, obsDay, obsDay, obsDay, obsDay]

/-- The trend statistics of `obs5`. -/
def statsObs : Stats :=
  { avgTemp := 25, tempRange := 0, avgHumidity := 70, avgWind := 3 }

/-- A predicted day whose temperature (40 °C) lies outside the plausible
range of `obs5` (25 ± 0). -/
def predHot : PredDay :=
  { date := "2024-05-06"
    main := { temp := 40, feels_like := 40, temp_min := 38, temp_max := 42,
              humidity := 70 }
    weather := [⟨"Clear", "trời quang", "01d"⟩]
    wind := { speed := 3, deg := 180 }
    pop := 0 }

/-- A predicted day inside all plausible ranges. -/
def predFine : PredDay :=
  { date := "2024-05-07"
    main := { temp := 25, feels_like := 25, temp_min := 24, temp_max := 26,
              humidity := 70 }
    weather := [⟨"Clouds", "mây rải rác", "02d"⟩]
    wind := { speed := 3, deg := 180 }
    pop := 0 }

/-- A prediction whose day 6 is implausible and day 7 is fine. -/
def predBad : Prediction :=
  { day6 := predHot, day7 := predFine }

/-- Environment for the seven-day endpoint: cold cache, OpenWeatherMap
returns the five observed days, Gemini returns `predBad`. -/
def envSeven : Env :=
  { envBase with gemini := some predBad, owm := .owmOk (some "Hanoi") obs5 }

/-- An upstream that answers HTTP 500 on every attempt. -/
def appErrOracle : Nat → AttemptOutcome :=
  fun _ => .appErr 500 "Request failed with status code 500"

/-- A parsed AI analysis whose `type` (`"daily"`) is not in the allowed enum
and whose time descriptor is a `range`. -/
def parsedBad : ParsedAnalysis :=
  { location := none
    time := some { type := some "range", value := none, period := none,
                   isHistory := false }
    type := some "daily"
    details := [] }

/-! ## Lemmas about the cache lookup -/

/-- Unfolding equation of `findInDatabase` on a non-empty collection. -/
theorem findInDatabase_cons (r : DbRecord) (rest : List DbRecord) (now : Int)
    (q : DbQuery) (w : Nat) :
    findInDatabase (r :: rest) now q w =
      if matchesQuery q r && decide (now - (w : Int) ≤ r.time) then
        match findInDatabase rest now q w with
        | none => some r
        | some b => if b.time < r.time then some r else some b
      else findInDatabase rest now q w := rfl

/-- `findInDatabase` returns nothing exactly when no record of the collection
both matches the filter and is fresh. -/
theorem findInDatabase_eq_none_iff (coll : List DbRecord) (now : Int)
    (q : DbQuery) (w : Nat) :
    findInDatabase coll now q w = none ↔
      ∀ r ∈ coll, ¬(matchesQuery q r = true ∧ now - (w : Int) ≤ r.time) := by
  induction coll with
  | nil => simp [findInDatabase]
  | cons r rest ih =>
    by_cases hm : (matchesQuery q r && decide (now - (w : Int) ≤ r.time)) = true
    · have hsome : ∃ x, findInDatabase (r :: rest) now q w = some x := by
        rw [findInDatabase_cons, if_pos hm]
        cases findInDatabase rest now q w with
        | none => exact ⟨r, rfl⟩
        | some b =>
          by_cases hbt : b.time < r.time
          · exact ⟨r, by simp [hbt]⟩
          · exact ⟨b, by simp [hbt]⟩
      rcases hsome with ⟨x, hx⟩
      rw [hx]
      simp only [Bool.and_eq_true, decide_eq_true_eq] at hm
      constructor
      · intro h
        exact Option.noConfusion h
      · intro h
        exact absurd ⟨hm.1, hm.2⟩ (h r (List.mem_cons_self r rest))
    · have hL : findInDatabase (r :: rest) now q w = findInDatabase rest now q w := by
        rw [findInDatabase_cons, if_neg hm]
      rw [hL, ih]
      constructor
      · intro h r' hr'
        rcases List.mem_cons.mp hr' with h1 | h2
        · subst h1
          intro hc
          exact hm (by simp [hc.1, hc.2])
        · exact h r' h2
      · intro h r' hr'
        exact h r' (List.mem_cons_of_mem r hr')

/-! ## Lemmas about the shared handler shape -/

/-- Cache hit: the stored payload is returned and no upstream call is made. -/
theorem cached_hit (cfg : EndpointCfg) (env : Env) (req : Req) (r : DbRecord)
    (hv : validationOf cfg req = .ok ())
    (hg : (needsGeo req && (searchLocation env.geo).isEmpty) = false)
    (hdb : env.dbFindOk = true)
    (hl : lookupOf cfg env req = some r) :
    cachedWeatherEndpoint cfg env req =
      ⟨.ok cfg.hitMsg r.data, if needsGeo req then 1 else 0, 0, none, 0⟩ := by
  unfold cachedWeatherEndpoint
  rw [hv, hg, hdb, hl]
  simp

/-- Cache miss: exactly one upstream call, at most one write attempt. -/
theorem cached_miss (cfg : EndpointCfg) (env : Env) (req : Req)
    (hv : validationOf cfg req = .ok ())
    (hg : (needsGeo req && (searchLocation env.geo).isEmpty) = false)
    (hdb : env.dbFindOk = true)
    (hl : lookupOf cfg env req = none) :
    (cachedWeatherEndpoint cfg env req).upstreamCalls = 1 ∧
      (cachedWeatherEndpoint cfg env req).dbWrites ≤ 1 := by
  unfold cachedWeatherEndpoint
  rw [hv, hg, hdb, hl]
  cases env.api with
  | apiOk p => cases env.saveOk <;> simp
  | apiErr st m => simp

/-- Cache miss, successful upstream fetch, failing write: the shared handler
shape answers the 500 error response — its `saveToDatabase` sits inside the
same `try` whose `catch` invokes `handleError`. -/
theorem cached_save_fails (cfg : EndpointCfg) (env : Env) (req : Req)
    (p : Payload)
    (hv : validationOf cfg req = .ok ())
    (hg : (needsGeo req && (searchLocation env.geo).isEmpty) = false)
    (hdb : env.dbFindOk = true)
    (hl : lookupOf cfg env req = none)
    (hapi : env.api = .apiOk p)
    (hsave : env.saveOk = false) :
    (cachedWeatherEndpoint cfg env req).resp =
      .err 500 dbErrorMessage (errMsg cfg.errType) := by
  unfold cachedWeatherEndpoint
  rw [hv, hg, hdb, hl, hapi, hsave]
  simp

/-- Name-only request, geocoder returns no results: `Location not found`,
no upstream call, no write. -/
theorem cached_locNotFound (cfg : EndpointCfg) (env : Env) (req : Req)
    (hv : validationOf cfg req = .ok ())
    (hla : req.lat = none) (hlo : req.lon = none)
    (hg : searchLocation env.geo = []) :
    cachedWeatherEndpoint cfg env req =
      ⟨.err 500 "Location not found" (errMsg cfg.errType), 1, 0, none, 0⟩ := by
  have hng : needsGeo req = true := by
    simp [needsGeo, hla, truthy]
  unfold cachedWeatherEndpoint
  rw [hv]
  simp [hng, hg]

/-- Coordinate-pair request: the geocoder is never called and any upstream
location query is the verbatim `lat,lon` pair. -/
theorem cached_coords (cfg : EndpointCfg) (env : Env) (req : Req)
    (hla : truthy req.lat = true) (hlo : truthy req.lon = true) :
    (cachedWeatherEndpoint cfg env req).geoCalls = 0 ∧
      ∀ s, (cachedWeatherEndpoint cfg env req).apiQuery = some s →
        s = coordQ req := by
  have hng : needsGeo req = false := by
    simp [needsGeo, hla, hlo]
  have huc : useCoords req = true := by
    simp [useCoords, hla, hlo]
  unfold cachedWeatherEndpoint
  cases hv : validationOf cfg req with
  | error e => simp
  | ok u =>
    simp only [hng, huc, Bool.false_and, Bool.not_false, if_true, if_false]
    cases hdb : env.dbFindOk with
    | false => simp
    | true =>
      cases hl : lookupOf cfg env req with
      | some r => simp
      | none =>
        cases env.api with
        | apiOk p => cases env.saveOk <;> simp
        | apiErr st m => simp

/-! ## Lemmas about `getWeatherHistory` -/

/-- History cache hit. -/
theorem history_hit (env : Env) (req : Req) (r : DbRecord)
    (hv : validateLocation (historyLocation req) req.lat req.lon = .ok ())
    (hd : validateDate (historyDate req) = .ok ())
    (hg : (needsGeo req && (searchLocation env.geo).isEmpty) = false)
    (hdb : env.dbFindOk = true)
    (hl : findInDatabase env.dbHistory env.now (historyDbQuery env req)
        CACHE_DURATIONS.history = some r) :
    getWeatherHistory env req =
      ⟨.ok "Weather history retrieved from database" r.data,
        if needsGeo req then 1 else 0, 0, none, 0⟩ := by
  unfold getWeatherHistory
  rw [hv, hd, hg, hdb]
  simp [hl]

/-- History cache miss: one upstream call, at most one write. -/
theorem history_miss (env : Env) (req : Req)
    (hv : validateLocation (historyLocation req) req.lat req.lon = .ok ())
    (hd : validateDate (historyDate req) = .ok ())
    (hg : (needsGeo req && (searchLocation env.geo).isEmpty) = false)
    (hdb : env.dbFindOk = true)
    (hl : findInDatabase env.dbHistory env.now (historyDbQuery env req)
        CACHE_DURATIONS.history = none) :
    (getWeatherHistory env req).upstreamCalls = 1 ∧
      (getWeatherHistory env req).dbWrites ≤ 1 := by
  unfold getWeatherHistory
  rw [hv, hd, hg, hdb]
  simp only [if_true, hl]
  cases env.api with
  | apiOk p => simp
  | apiErr st m => simp

/-- History: a failed write of the fresh record is swallowed — the handler
still answers the fetched payload with the success message. -/
theorem history_save_swallowed (env : Env) (req : Req) (p : Payload)
    (hv : validateLocation (historyLocation req) req.lat req.lon = .ok ())
    (hd : validateDate (historyDate req) = .ok ())
    (hg : (needsGeo req && (searchLocation env.geo).isEmpty) = false)
    (hdb : env.dbFindOk = true)
    (hl : findInDatabase env.dbHistory env.now (historyDbQuery env req)
        CACHE_DURATIONS.history = none)
    (hapi : env.api = .apiOk p)
    (hsave : env.saveOk = false) :
    (getWeatherHistory env req).resp =
      .ok "Weather history retrieved from API and saved to database" p := by
  unfold getWeatherHistory
  rw [hv, hd, hg, hdb]
  simp [hl, hapi]

/-- History name-only request with an empty geocoder result. -/
theorem history_locNotFound (env : Env) (req : Req)
    (hv : validateLocation (historyLocation req) req.lat req.lon = .ok ())
    (hd : validateDate (historyDate req) = .ok ())
    (hla : req.lat = none) (hlo : req.lon = none)
    (hg : searchLocation env.geo = []) :
    getWeatherHistory env req =
      ⟨.err 500 "Location not found" (errMsg "Weather History"), 1, 0, none, 0⟩ := by
  have hng : needsGeo req = true := by
    simp [needsGeo, hla, truthy]
  unfold getWeatherHistory
  rw [hv, hd]
  simp [hng, hg]

/-- History coordinate-pair request: no geocoding; verbatim coordinates. -/
theorem history_coords (env : Env) (req : Req)
    (hla : truthy req.lat = true) (hlo : truthy req.lon = true) :
    (getWeatherHistory env req).geoCalls = 0 ∧
      ∀ s, (getWeatherHistory env req).apiQuery = some s → s = coordQ req := by
  have hng : needsGeo req = false := by
    simp [needsGeo, hla, hlo]
  have huc : useCoords req = true := by
    simp [useCoords, hla, hlo]
  unfold getWeatherHistory
  cases hv : validateLocation (historyLocation req) req.lat req.lon with
  | error e => simp
  | ok u =>
    cases hd : validateDate (historyDate req) with
    | error e => simp
    | ok u' =>
      simp only [hng, huc, Bool.false_and, Bool.not_false, if_true, if_false]
      cases hdb : env.dbFindOk with
      | false =>
        cases env.api with
        | apiOk p => simp
        | apiErr st m => simp
      | true =>
        cases hl : findInDatabase env.dbHistory env.now (historyDbQuery env req)
            CACHE_DURATIONS.history with
        | some r => simp [hl]
        | none =>
          cases env.api with
          | apiOk p => simp [hl]
          | apiErr st m => simp [hl]

/-! ## Lemmas about `getSevenDayForecast` -/

/-- The location check of the seven-day endpoint passes. -/
theorem seven_locCheck (req : Req)
    (hv : (truthy req.location || (truthy req.lat && truthy req.lon)) = true) :
    (!truthy req.location && (!truthy req.lat || !truthy req.lon)) = false := by
  cases h1 : truthy req.location <;> cases h2 : truthy req.lat <;>
    cases h3 : truthy req.lon <;> simp_all

/-- Seven-day cache hit. -/
theorem seven_hit (env : Env) (req : Req) (r : DbRecord)
    (hv : (truthy req.location || (truthy req.lat && truthy req.lon)) = true)
    (hg : (needsGeo req && (searchLocation env.geo).isEmpty) = false)
    (hdb : env.dbFindOk = true)
    (hl : findInDatabase env.dbWeather env.now (sevenDbQuery env req)
        sevenDayWindow = some r) :
    getSevenDayForecast env req =
      ⟨.ok "7-day forecast retrieved from database" r.data,
        if needsGeo req then 1 else 0, 0, none, 0⟩ := by
  unfold getSevenDayForecast
  rw [seven_locCheck req hv, hg, hdb, hl]
  simp

/-- Seven-day cache miss: one OpenWeatherMap call, at most one write. -/
theorem seven_miss (env : Env) (req : Req)
    (hv : (truthy req.location || (truthy req.lat && truthy req.lon)) = true)
    (hg : (needsGeo req && (searchLocation env.geo).isEmpty) = false)
    (hdb : env.dbFindOk = true)
    (hl : findInDatabase env.dbWeather env.now (sevenDbQuery env req)
        sevenDayWindow = none) :
    (getSevenDayForecast env req).upstreamCalls = 1 ∧
      (getSevenDayForecast env req).dbWrites ≤ 1 := by
  unfold getSevenDayForecast
  rw [seven_locCheck req hv, hg, hdb, hl]
  cases env.owm with
  | owmErr m => simp
  | owmInvalid => simp
  | owmOk cityName days => cases env.saveOk <;> simp

/-- Seven-day, name-only request, empty geocoder result. -/
theorem seven_locNotFound (env : Env) (req : Req)
    (hloc : truthy req.location = true)
    (hla : req.lat = none) (hlo : req.lon = none)
    (hg : searchLocation env.geo = []) :
    getSevenDayForecast env req =
      ⟨.err 500 "Failed to fetch weather data" "Location not found",
        1, 0, none, 0⟩ := by
  have hv : (truthy req.location || (truthy req.lat && truthy req.lon)) = true := by
    simp [hloc]
  have hng : needsGeo req = true := by
    simp [needsGeo, hla, truthy]
  unfold getSevenDayForecast
  rw [seven_locCheck req hv]
  simp [hng, hg]

/-- Seven-day coordinate-pair request: no geocoding; verbatim coordinates. -/
theorem seven_coords (env : Env) (req : Req)
    (hla : truthy req.lat = true) (hlo : truthy req.lon = true) :
    (getSevenDayForecast env req).geoCalls = 0 ∧
      ∀ s, (getSevenDayForecast env req).apiQuery = some s → s = coordQ req := by
  have hng : needsGeo req = false := by
    simp [needsGeo, hla, hlo]
  have huc : useCoords req = true := by
    simp [useCoords, hla, hlo]
  unfold getSevenDayForecast
  cases hc : (!truthy req.location && (!truthy req.lat || !truthy req.lon)) with
  | true => simp
  | false =>
    simp only [hng, huc, Bool.false_and, if_true, if_false]
    cases hdb : env.dbFindOk with
    | false => simp
    | true =>
      cases hl : findInDatabase env.dbWeather env.now (sevenDbQuery env req)
          sevenDayWindow with
      | some r => simp [hl]
      | none =>
        cases env.owm with
        | owmErr m => simp [hl]
        | owmInvalid => simp [hl]
        | owmOk cityName days => cases env.saveOk <;> simp [hl]

/-- Seven-day: a fresh fetch with a working store returns the composed data. -/
theorem seven_api_ok (env : Env) (req : Req) (cityName : Option String)
    (days : List FDay)
    (hv : (truthy req.location || (truthy req.lat && truthy req.lon)) = true)
    (hg : (needsGeo req && (searchLocation env.geo).isEmpty) = false)
    (hdb : env.dbFindOk = true)
    (hl : findInDatabase env.dbWeather env.now (sevenDbQuery env req)
        sevenDayWindow = none)
    (howm : env.owm = .owmOk cityName days)
    (hsave : env.saveOk = true) :
    (getSevenDayForecast env req).resp =
      .ok "7-day forecast retrieved successfully"
        (.seven
          { locName := cityName
            forecast := (sevenDayCompose days env.gemini).1
            notice := some (sevenDayCompose days env.gemini).2 }) := by
  unfold getSevenDayForecast
  rw [seven_locCheck req hv, hg, hdb, hl, howm]
  simp [hsave]

/-- Seven-day cache miss, usable OpenWeatherMap response, failing write: the
handler answers 500 — the save sits inside the inner `try`, whose `catch`
rethrows with the fixed `Failed to fetch weather data` text. -/
theorem seven_save_fails (env : Env) (req : Req) (cityName : Option String)
    (days : List FDay)
    (hv : (truthy req.location || (truthy req.lat && truthy req.lon)) = true)
    (hg : (needsGeo req && (searchLocation env.geo).isEmpty) = false)
    (hdb : env.dbFindOk = true)
    (hl : findInDatabase env.dbWeather env.now (sevenDbQuery env req)
        sevenDayWindow = none)
    (howm : env.owm = .owmOk cityName days)
    (hsave : env.saveOk = false) :
    (getSevenDayForecast env req).resp =
      .err 500 "Failed to fetch weather data" "Failed to fetch weather data" := by
  unfold getSevenDayForecast
  rw [seven_locCheck req hv, hg, hdb, hl, howm, hsave]
  simp

/-- The composition drops both predicted days and annotates 5-day-only
whenever either fails the plausibility/vocabulary gate. -/
theorem sevenDayCompose_reject (forecast : List FDay) (st : Stats)
    (pred : Prediction)
    (hs : computeStats (lastFive forecast) = some st)
    (hbad : validatePrediction st pred.day6 = false ∨
      validatePrediction st pred.day7 = false) :
    sevenDayCompose forecast (some pred) = (forecast, fiveDayNotice) := by
  unfold sevenDayCompose
  rw [hs]
  rcases hbad with h | h <;> simp [h]

/-- The composition appends exactly the two accepted days otherwise. -/
theorem sevenDayCompose_accept (forecast : List FDay) (st : Stats)
    (pred : Prediction)
    (hs : computeStats (lastFive forecast) = some st)
    (h6 : validatePrediction st pred.day6 = true)
    (h7 : validatePrediction st pred.day7 = true) :
    sevenDayCompose forecast (some pred) =
      (forecast ++ [predToFDay pred.day6, predToFDay pred.day7],
        sevenDayNotice) := by
  unfold sevenDayCompose
  rw [hs]
  simp [h6, h7]

/-! ## Lemmas about the retry interceptor -/

/-- A successful attempt ends the loop at once. -/
theorem axiosLoop_success (oracle : Nat → AttemptOutcome)
    (retry retryDelay fuel rc : Nat) (p : Payload)
    (h : oracle rc = .success p) :
    axiosLoop oracle retry retryDelay fuel rc =
      ⟨.success p, rc + 1, rc * retryDelay⟩ := by
  rw [axiosLoop]
  rw [h]

/-- A failed attempt at `retryCount ≥ retry` is propagated. -/
theorem axiosLoop_exhaust (oracle : Nat → AttemptOutcome)
    (retry retryDelay fuel rc : Nat)
    (h : isErr (oracle rc) = true) (hge : retry ≤ rc) :
    axiosLoop oracle retry retryDelay fuel rc =
      ⟨oracle rc, rc + 1, rc * retryDelay⟩ := by
  rw [axiosLoop]
  cases ho : oracle rc with
  | success p => rfl
  | transportErr m => simp [hge]
  | appErr st m => simp [hge]

/-- A failed attempt below the retry budget sleeps and re-issues. -/
theorem axiosLoop_step (oracle : Nat → AttemptOutcome)
    (retry retryDelay fuel rc : Nat)
    (h : isErr (oracle rc) = true) (hlt : rc < retry) (hf : fuel ≠ 0) :
    axiosLoop oracle retry retryDelay fuel rc =
      axiosLoop oracle retry retryDelay (fuel - 1) (rc + 1) := by
  cases fuel with
  | zero => exact absurd rfl hf
  | succ f =>
    conv_lhs => rw [axiosLoop]
    cases ho : oracle rc with
    | success p => rw [ho] at h; simp [isErr] at h
    | transportErr m => simp [if_neg (by omega : ¬ retry ≤ rc)]
    | appErr st m => simp [if_neg (by omega : ¬ retry ≤ rc)]

/-- A predicted day with any field outside the plausible ranges, or a weather
category outside the fixed vocabulary, fails the gate. -/
theorem validatePrediction_false_of (st : Stats) (d : PredDay) (w : WeatherDesc)
    (hw : d.weather.head? = some w)
    (h : d.main.temp < st.avgTemp - st.tempRange ∨
      d.main.temp > st.avgTemp + st.tempRange ∨
      d.main.humidity < max 0 (st.avgHumidity - 20) ∨
      d.main.humidity > min 100 (st.avgHumidity + 20) ∨
      d.wind.speed < max 0 (st.avgWind - 5) ∨
      d.wind.speed > st.avgWind + 5 ∨
      weatherMapping w.main = none) :
    validatePrediction st d = false := by
  unfold validatePrediction
  rw [hw]
  split_ifs with h1 h2 h3
  · rfl
  · rfl
  · rfl
  · rcases h with h | h | h | h | h | h | h
    · exact absurd (by simp [h]) h1
    · exact absurd (by simp [h]) h1
    · exact absurd (by simp [h]) h2
    · exact absurd (by simp [h]) h2
    · exact absurd (by simp [h]) h3
    · exact absurd (by simp [h]) h3
    · simp [h]

/-! ## Lemmas about the question resolver -/

/-- The rule-based fallback only ever assigns an allowed `type`. -/
theorem manual_type_valid (q : String) (today : Int) :
    (manualAnalyzeQuestion q today).type ∈ validTypes := by
  simp only [manualAnalyzeQuestion]
  cases hm : firstHistoryMatch (jsToLower q).toList with
  | none =>
    dsimp only
    split_ifs <;> simp [validTypes]
  | some pr =>
    rcases pr with ⟨caps, matched⟩
    dsimp only
    split_ifs <;> simp [validTypes]

/-- A parsed analysis leaves `analyzeQuestion` with an allowed `type`. -/
theorem parsed_type_valid (a : ParsedAnalysis) (q : String) (today : Int) :
    (analyzeQuestion (.parsed a) q today).type ∈ validTypes := by
  simp only [analyzeQuestion]
  cases ha : a.type with
  | none =>
    dsimp only
    unfold reclassifyType
    split_ifs <;> simp [validTypes]
  | some t =>
    dsimp only
    by_cases hc : validTypes.contains t = true
    · rw [if_pos hc]
      exact List.mem_of_elem_eq_true hc
    · rw [if_neg hc]
      unfold reclassifyType
      split_ifs <;> simp [validTypes]

/-- When nothing matches, the fallback returns the untouched default. -/
theorem manual_default (q : String) (today : Int)
    (h : manualNoMatch q = true) :
    manualAnalyzeQuestion q today = currentDefaultAnalysis := by
  simp only [manualNoMatch, Bool.and_eq_true] at h
  obtain ⟨⟨⟨⟨⟨hm, h1⟩, h2⟩, h3⟩, h4⟩, h5⟩ := h
  simp only [manualAnalyzeQuestion]
  rw [Option.isNone_iff_eq_none] at hm
  rw [hm]
  simp only [Bool.not_eq_true'] at h1 h2 h3 h4 h5
  simp [h1, h2, h3, h4, h5, currentDefaultAnalysis]

/-! ## Claims -/

/-- Claim C2: the freshness window used for the cache lookup of each report
type equals, in hours: current=1, forecast=3, future=24, marine=6,
astronomy=24, timezone=24, alerts=1, history=24; the seven-day forecast
lookup uses the forecast window (3 hours).  Each handler's lookup is tied to
its window through its configuration (and `sevenDayWindow` for the seven-day
handler, `CACHE_DURATIONS.history` for the history handler). -/
theorem claim2_freshness_windows :
    CACHE_DURATIONS.current = 1 ∧ CACHE_DURATIONS.forecast = 3 ∧
    CACHE_DURATIONS.future = 24 ∧ CACHE_DURATIONS.marine = 6 ∧
    CACHE_DURATIONS.astronomy = 24 ∧ CACHE_DURATIONS.timezone = 24 ∧
    CACHE_DURATIONS.alerts = 1 ∧ CACHE_DURATIONS.history = 24 ∧
    sevenDayWindow = CACHE_DURATIONS.forecast ∧ sevenDayWindow = 3 ∧
    currentCfg.window = CACHE_DURATIONS.current ∧
    forecastCfg.window = CACHE_DURATIONS.forecast ∧
    futureCfg.window = CACHE_DURATIONS.future ∧
    marineCfg.window = CACHE_DURATIONS.marine ∧
    astronomyCfg.window = CACHE_DURATIONS.astronomy ∧
    timezoneCfg.window = CACHE_DURATIONS.timezone ∧
    alertsCfg.window = CACHE_DURATIONS.alerts :=
  ⟨rfl, rfl, rfl, rfl, rfl, rfl, rfl, rfl, rfl, rfl, rfl, rfl, rfl, rfl, rfl,
   rfl, rfl⟩

/-- Claim C7, counterexample: an upstream that answers HTTP 500 (a 5xx
application error, never transport-classified) is nevertheless retried — the
interceptor issues 4 physical attempts with 3 seconds of accumulated delay,
refuting "4xx/5xx application errors are not retried". -/
theorem claim7_counterexample :
    axiosRequest appErrOracle 3 1000 =
      ⟨.appErr 500 "Request failed with status code 500", 4, 3000⟩ ∧
    (axiosRequest appErrOracle 3 1000).attempts ≠ 1 := by
  constructor
  · rfl
  · decide

/-- Claim C7 as amended: on *any* failure — transport or 4xx/5xx application
error alike — the call is retried up to 3 times with a fixed 1-second delay
between attempts, and the failure is propagated to the caller only after all
retries are exhausted; a success at attempt `i` stops the loop after `i`
delays. -/
theorem claim7_amended_retry_policy (oracle : Nat → AttemptOutcome) :
    ((∀ j, j ≤ 3 → isErr (oracle j) = true) →
      axiosRequest oracle 3 1000 = ⟨oracle 3, 4, 3000⟩) ∧
    (∀ (i : Nat) (p : Payload), i ≤ 3 →
      (∀ j, j < i → isErr (oracle j) = true) → oracle i = .success p →
      axiosRequest oracle 3 1000 = ⟨.success p, i + 1, i * 1000⟩) := by
  constructor
  · intro h
    unfold axiosRequest
    rw [axiosLoop_step oracle 3 1000 3 0 (h 0 (by omega)) (by omega) (by omega)]
    rw [axiosLoop_step oracle 3 1000 2 1 (h 1 (by omega)) (by omega) (by omega)]
    rw [axiosLoop_step oracle 3 1000 1 2 (h 2 (by omega)) (by omega) (by omega)]
    rw [axiosLoop_exhaust oracle 3 1000 0 3 (h 3 (by omega)) (by omega)]
  · intro i p hi hbefore hp
    unfold axiosRequest
    interval_cases i
    · rw [axiosLoop_success oracle 3 1000 3 0 p hp]
    · rw [axiosLoop_step oracle 3 1000 3 0 (hbefore 0 (by omega)) (by omega)
        (by omega)]
      rw [axiosLoop_success oracle 3 1000 2 1 p hp]
    · rw [axiosLoop_step oracle 3 1000 3 0 (hbefore 0 (by omega)) (by omega)
        (by omega)]
      rw [axiosLoop_step oracle 3 1000 2 1 (hbefore 1 (by omega)) (by omega)
        (by omega)]
      rw [axiosLoop_success oracle 3 1000 1 2 p hp]
    · rw [axiosLoop_step oracle 3 1000 3 0 (hbefore 0 (by omega)) (by omega)
        (by omega)]
      rw [axiosLoop_step oracle 3 1000 2 1 (hbefore 1 (by omega)) (by omega)
        (by omega)]
      rw [axiosLoop_step oracle 3 1000 1 2 (hbefore 2 (by omega)) (by omega)
        (by omega)]
      rw [axiosLoop_success oracle 3 1000 0 3 p hp]

/-- Claim C7 amended, witness: a permanent transport failure is propagated
after 4 attempts and 3000 ms of delay; an immediate success takes one attempt
and no delay. -/
theorem claim7_amended_witness :
    axiosRequest (fun _ => .transportErr "timeout") 3 1000 =
      ⟨.transportErr "timeout", 4, 3000⟩ ∧
    axiosRequest (fun _ => .success (.raw 5)) 3 1000 =
      ⟨.success (.raw 5), 1, 0⟩ := by
  constructor
  · exact (claim7_amended_retry_policy (fun _ => .transportErr "timeout")).1
      (fun j _ => rfl)
  · exact (claim7_amended_retry_policy (fun _ => .success (.raw 5))).2 0 (.raw 5)
      (by omega) (fun j hj => absurd hj (by omega)) rfl

/-- Claim C4: for every question and every possible generative-AI outcome
(error, empty text, text with no parseable JSON — all `failed` — as well as
any parsed object), the resolver terminates (it is a total function) without
raising and the returned intent's `type` is one of the eight allowed values;
an AI failure delegates to the rule-based fallback, and when nothing matches
the fallback returns the fully-populated `current`-type default with no
extracted location. -/
theorem claim4_resolver_total (g : GeminiOutcome) (q : String) (today : Int) :
    (analyzeQuestion g q today).type ∈ validTypes ∧
    analyzeQuestion .failed q today = manualAnalyzeQuestion q today ∧
    (manualAnalyzeQuestion q today).location = none ∧
    (manualNoMatch q = true →
      analyzeQuestion .failed q today = currentDefaultAnalysis) := by
  refine ⟨?_, rfl, ?_, fun h => manual_default q today h⟩
  · cases g with
    | failed => exact manual_type_valid q today
    | parsed a => exact parsed_type_valid a q today
  · simp only [manualAnalyzeQuestion]
    cases hm : firstHistoryMatch (jsToLower q).toList with
    | none => dsimp only; split_ifs <;> rfl
    | some pr =>
      rcases pr with ⟨caps, matched⟩
      dsimp only
      split_ifs <;> rfl

/-- Claim C4, witness: an unmatched question under an AI failure yields the
`current`-type default, whose `type` is in the enum. -/
theorem claim4_witness :
    analyzeQuestion GeminiOutcome.failed "xin chào" 0 = currentDefaultAnalysis ∧
    (analyzeQuestion GeminiOutcome.failed "xin chào" 0).type ∈ validTypes := by
  constructor
  · exact (claim4_resolver_total GeminiOutcome.failed "xin chào" 0).2.2.2
      (by decide)
  · exact (claim4_resolver_total GeminiOutcome.failed "xin chào" 0).1

/-- Claim C5: a parsed analysis whose `type` is not one of the allowed values
is reclassified deterministically: `time.isHistory` truthy → `history`;
otherwise `time.type` equal to `range` or `future` → `forecast`; otherwise
`current`. -/
theorem claim5_invalid_type_reclassified (a : ParsedAnalysis) (q : String)
    (today : Int) (hbad : typeAllowed a.type = false) :
    (analyzeQuestion (.parsed a) q today).type =
      (if timeIsHistory a.time then "history"
       else if timeRangeOrFuture a.time then "forecast" else "current") := by
  simp only [analyzeQuestion]
  cases ha : a.type with
  | none =>
    dsimp only
    rfl
  | some t =>
    have hc : validTypes.contains t = false := by
      simpa [typeAllowed, ha] using hbad
    dsimp only
    rw [if_neg (by intro hcon; rw [hc] at hcon; exact Bool.noConfusion hcon)]
    rfl

/-- Claim C5, witness: the disallowed type `daily` with a `range` time
descriptor is reclassified to `forecast`. -/
theorem claim5_witness :
    typeAllowed parsedBad.type = false ∧
    (analyzeQuestion (.parsed parsedBad) "q" 0).type = "forecast" := by
  constructor
  · decide
  · have h := claim5_invalid_type_reclassified parsedBad "q" 0 (by decide)
    simpa using h

/-- Claim C6: in the seven-day composition, any predicted day whose
temperature, humidity or wind speed lies outside the plausible range computed
from the five observed days, or whose weather category is not in the fixed
vocabulary, fails the gate; and if either predicted day fails, both are
dropped with no repair — the forecast list is returned unchanged — and the
response's `notice` is the 5-day-only text. -/
theorem claim6_prediction_gate (days : List FDay) (st : Stats)
    (pred : Prediction)
    (hs : computeStats (lastFive days) = some st)
    (hbad : validatePrediction st pred.day6 = false ∨
      validatePrediction st pred.day7 = false) :
    sevenDayCompose days (some pred) = (days, fiveDayNotice) ∧
    (∀ (st' : Stats) (d : PredDay) (w : WeatherDesc),
      d.weather.head? = some w →
      (d.main.temp < st'.avgTemp - st'.tempRange ∨
       d.main.temp > st'.avgTemp + st'.tempRange ∨
       d.main.humidity < max 0 (st'.avgHumidity - 20) ∨
       d.main.humidity > min 100 (st'.avgHumidity + 20) ∨
       d.wind.speed < max 0 (st'.avgWind - 5) ∨
       d.wind.speed > st'.avgWind + 5 ∨
       weatherMapping w.main = none) →
      validatePrediction st' d = false) ∧
    (∀ (env : Env) (req : Req) (cityName : Option String),
      env.gemini = some pred → env.owm = .owmOk cityName days →
      env.saveOk = true →
      (truthy req.location || (truthy req.lat && truthy req.lon)) = true →
      (needsGeo req && (searchLocation env.geo).isEmpty) = false →
      env.dbFindOk = true →
      findInDatabase env.dbWeather env.now (sevenDbQuery env req)
        sevenDayWindow = none →
      (getSevenDayForecast env req).resp =
        .ok "7-day forecast retrieved successfully"
          (.seven { locName := cityName, forecast := days,
                    notice := some fiveDayNotice })) := by
  refine ⟨sevenDayCompose_reject days st pred hs hbad, ?_, ?_⟩
  · intro st' d w hw h
    exact validatePrediction_false_of st' d w hw h
  · intro env req cityName hgem howm hsave hv hg hdb hl
    have h := seven_api_ok env req cityName days hv hg hdb hl howm hsave
    rw [hgem, sevenDayCompose_reject days st pred hs hbad] at h
    simpa using h

/-- Claim C6, witness: a prediction 15 °C above the plausible band of five
identical observed days is rejected wholesale and the handler's stored and
returned notice is 5-day-only. -/
theorem claim6_witness :
    computeStats (lastFive obs5) = some statsObs ∧
    validatePrediction statsObs predBad.day6 = false ∧
    sevenDayCompose obs5 (some predBad) = (obs5, fiveDayNotice) ∧
    (getSevenDayForecast envSeven reqName).resp =
      .ok "7-day forecast retrieved successfully"
        (.seven { locName := some "Hanoi", forecast := obs5,
                  notice := some fiveDayNotice }) := by
  have hs : computeStats (lastFive obs5) = some statsObs := by
    simp [computeStats, lastFive, obs5, obsDay, qsum, qmaxList, qminList,
      statsObs]
    norm_num
  have hbad : validatePrediction statsObs predBad.day6 = false := by
    simp [validatePrediction, predBad, predHot, statsObs, weatherMapping]
  refine ⟨hs, hbad, ?_, ?_⟩
  · exact (claim6_prediction_gate obs5 statsObs predBad hs (Or.inl hbad)).1
  · exact (claim6_prediction_gate obs5 statsObs predBad hs (Or.inl hbad)).2.2
      envSeven reqName (some "Hanoi") rfl rfl rfl rfl rfl rfl rfl

/-- Claim C3, counterexample: for the current-weather endpoint a failed
database write of the freshly fetched record is *not* swallowed — the handler
answers a 500 error response instead of the fetched payload, because the
`saveToDatabase` call sits in the same `try` whose `catch` invokes
`handleError` (weather.controller.js:273-290). -/
theorem claim3_counterexample :
    (getCurrentWeather { envBase with saveOk := false } reqName).resp =
      .err 500 dbErrorMessage (errMsg "Current Weather") ∧
    (getCurrentWeather { envBase with saveOk := false } reqName).resp ≠
      .ok "Current weather retrieved from API and saved to database"
        (.raw 7) := by
  constructor
  · rfl
  · decide

/-- Claim C3 as amended: only the history endpoint swallows a failed database
write of the new record (its save sits in a dedicated `try` whose `catch`
merely logs, weather.controller.js:1243-1258) and still returns the freshly
fetched payload with the success message; every other weather report endpoint
— current, forecast, future, marine, timezone, alerts, astronomy and
seven-day — answers a 500 error response when that write fails, because its
save sits inside the `try` whose `catch` produces the error response. -/
theorem claim3_amended_history_swallows (env : Env) (req : Req) (p : Payload) :
    ((validateLocation (historyLocation req) req.lat req.lon = .ok ()) →
      validateDate (historyDate req) = .ok () →
      (needsGeo req && (searchLocation env.geo).isEmpty) = false →
      env.dbFindOk = true →
      findInDatabase env.dbHistory env.now (historyDbQuery env req)
        CACHE_DURATIONS.history = none →
      env.api = .apiOk p →
      env.saveOk = false →
      (getWeatherHistory env req).resp =
        .ok "Weather history retrieved from API and saved to database" p) ∧
    (validationOf currentCfg req = .ok () →
      (needsGeo req && (searchLocation env.geo).isEmpty) = false →
      env.dbFindOk = true → lookupOf currentCfg env req = none →
      env.api = .apiOk p → env.saveOk = false →
      (getCurrentWeather env req).resp =
        .err 500 dbErrorMessage (errMsg currentCfg.errType)) ∧
    (validationOf forecastCfg req = .ok () →
      (needsGeo req && (searchLocation env.geo).isEmpty) = false →
      env.dbFindOk = true → lookupOf forecastCfg env req = none →
      env.api = .apiOk p → env.saveOk = false →
      (getForecast env req).resp =
        .err 500 dbErrorMessage (errMsg forecastCfg.errType)) ∧
    (validationOf futureCfg req = .ok () →
      (needsGeo req && (searchLocation env.geo).isEmpty) = false →
      env.dbFindOk = true → lookupOf futureCfg env req = none →
      env.api = .apiOk p → env.saveOk = false →
      (getFutureWeather env req).resp =
        .err 500 dbErrorMessage (errMsg futureCfg.errType)) ∧
    (validationOf marineCfg req = .ok () →
      (needsGeo req && (searchLocation env.geo).isEmpty) = false →
      env.dbFindOk = true → lookupOf marineCfg env req = none →
      env.api = .apiOk p → env.saveOk = false →
      (getMarineWeather env req).resp =
        .err 500 dbErrorMessage (errMsg marineCfg.errType)) ∧
    (validationOf timezoneCfg req = .ok () →
      (needsGeo req && (searchLocation env.geo).isEmpty) = false →
      env.dbFindOk = true → lookupOf timezoneCfg env req = none →
      env.api = .apiOk p → env.saveOk = false →
      (getTimeZone env req).resp =
        .err 500 dbErrorMessage (errMsg timezoneCfg.errType)) ∧
    (validationOf alertsCfg req = .ok () →
      (needsGeo req && (searchLocation env.geo).isEmpty) = false →
      env.dbFindOk = true → lookupOf alertsCfg env req = none →
      env.api = .apiOk p → env.saveOk = false →
      (getWeatherAlerts env req).resp =
        .err 500 dbErrorMessage (errMsg alertsCfg.errType)) ∧
    (validationOf astronomyCfg req = .ok () →
      (needsGeo req && (searchLocation env.geo).isEmpty) = false →
      env.dbFindOk = true → lookupOf astronomyCfg env req = none →
      env.api = .apiOk p → env.saveOk = false →
      (getAstronomy env req).resp =
        .err 500 dbErrorMessage (errMsg astronomyCfg.errType)) ∧
    (∀ (cityName : Option String) (days : List FDay),
      (truthy req.location || (truthy req.lat && truthy req.lon)) = true →
      (needsGeo req && (searchLocation env.geo).isEmpty) = false →
      env.dbFindOk = true →
      findInDatabase env.dbWeather env.now (sevenDbQuery env req)
        sevenDayWindow = none →
      env.owm = .owmOk cityName days → env.saveOk = false →
      (getSevenDayForecast env req).resp =
        .err 500 "Failed to fetch weather data"
          "Failed to fetch weather data") := by
  refine ⟨?_, ?_, ?_, ?_, ?_, ?_, ?_, ?_, ?_⟩
  · intro hv hd hg hdb hl hapi hsave
    exact history_save_swallowed env req p hv hd hg hdb hl hapi hsave
  · intro hv hg hdb hl hapi hsave
    exact cached_save_fails currentCfg env req p hv hg hdb hl hapi hsave
  · intro hv hg hdb hl hapi hsave
    exact cached_save_fails forecastCfg env req p hv hg hdb hl hapi hsave
  · intro hv hg hdb hl hapi hsave
    exact cached_save_fails futureCfg env req p hv hg hdb hl hapi hsave
  · intro hv hg hdb hl hapi hsave
    exact cached_save_fails marineCfg env req p hv hg hdb hl hapi hsave
  · intro hv hg hdb hl hapi hsave
    exact cached_save_fails timezoneCfg env req p hv hg hdb hl hapi hsave
  · intro hv hg hdb hl hapi hsave
    exact cached_save_fails alertsCfg env req p hv hg hdb hl hapi hsave
  · intro hv hg hdb hl hapi hsave
    exact cached_save_fails astronomyCfg env req p hv hg hdb hl hapi hsave
  · intro cityName days hv hg hdb hl howm hsave
    exact seven_save_fails env req cityName days hv hg hdb hl howm hsave

/-- Claim C3 amended, witness: with a failing store, the history endpoint
still returns the fetched payload, while the forecast and seven-day endpoints
answer 500 at the same kind of input. -/
theorem claim3_witness :
    (getWeatherHistory { envBase with api := .apiOk (.raw 9), saveOk := false }
        reqHist).resp =
      .ok "Weather history retrieved from API and saved to database"
        (.raw 9) ∧
    (getForecast { envBase with saveOk := false } reqName).resp =
      .err 500 dbErrorMessage (errMsg "Forecast") ∧
    (getSevenDayForecast { envSeven with saveOk := false } reqName).resp =
      .err 500 "Failed to fetch weather data"
        "Failed to fetch weather data" := by
  refine ⟨?_, ?_, ?_⟩
  · exact (claim3_amended_history_swallows
      { envBase with api := .apiOk (.raw 9), saveOk := false } reqHist
      (.raw 9)).1 rfl rfl rfl rfl rfl rfl rfl
  · exact (claim3_amended_history_swallows { envBase with saveOk := false }
      reqName (.raw 7)).2.2.1 rfl rfl rfl rfl rfl rfl
  · exact (claim3_amended_history_swallows { envSeven with saveOk := false }
      reqName (.raw 7)).2.2.2.2.2.2.2.2 (some "Hanoi") obs5
      rfl rfl rfl rfl rfl rfl

/-- Claim C1: for every weather report endpoint, once the request passes
validation, any needed geocoding succeeded and the store is reachable — if a
persisted record matching the endpoint's report type, location key and
auxiliary key is within the freshness window of now, the handler returns that
record's payload with zero upstream weather-API calls and zero writes; if no
such fresh record exists (the leading equivalence ties the lookup to the
existence of a matching fresh record) the handler makes exactly one upstream
call and at most one database write.  The nine report endpoints are covered:
current, forecast, future, marine, timezone, alerts, astronomy, history and
seven-day. -/
theorem claim1_cache_discipline (env : Env) (req : Req) :
    (∀ (coll : List DbRecord) (q : DbQuery) (w : Nat),
      findInDatabase coll env.now q w = none ↔
        ∀ r ∈ coll, ¬(matchesQuery q r = true ∧ env.now - (w : Int) ≤ r.time)) ∧
    (validationOf currentCfg req = .ok () →
      (needsGeo req && (searchLocation env.geo).isEmpty) = false →
      env.dbFindOk = true →
      (∀ r, lookupOf currentCfg env req = some r →
        getCurrentWeather env req =
          ⟨.ok currentCfg.hitMsg r.data, if needsGeo req then 1 else 0, 0,
            none, 0⟩) ∧
      (lookupOf currentCfg env req = none →
        (getCurrentWeather env req).upstreamCalls = 1 ∧
        (getCurrentWeather env req).dbWrites ≤ 1)) ∧
    (validationOf forecastCfg req = .ok () →
      (needsGeo req && (searchLocation env.geo).isEmpty) = false →
      env.dbFindOk = true →
      (∀ r, lookupOf forecastCfg env req = some r →
        getForecast env req =
          ⟨.ok forecastCfg.hitMsg r.data, if needsGeo req then 1 else 0, 0,
            none, 0⟩) ∧
      (lookupOf forecastCfg env req = none →
        (getForecast env req).upstreamCalls = 1 ∧
        (getForecast env req).dbWrites ≤ 1)) ∧
    (validationOf futureCfg req = .ok () →
      (needsGeo req && (searchLocation env.geo).isEmpty) = false →
      env.dbFindOk = true →
      (∀ r, lookupOf futureCfg env req = some r →
        getFutureWeather env req =
          ⟨.ok futureCfg.hitMsg r.data, if needsGeo req then 1 else 0, 0,
            none, 0⟩) ∧
      (lookupOf futureCfg env req = none →
        (getFutureWeather env req).upstreamCalls = 1 ∧
        (getFutureWeather env req).dbWrites ≤ 1)) ∧
    (validationOf marineCfg req = .ok () →
      (needsGeo req && (searchLocation env.geo).isEmpty) = false →
      env.dbFindOk = true →
      (∀ r, lookupOf marineCfg env req = some r →
        getMarineWeather env req =
          ⟨.ok marineCfg.hitMsg r.data, if needsGeo req then 1 else 0, 0,
            none, 0⟩) ∧
      (lookupOf marineCfg env req = none →
        (getMarineWeather env req).upstreamCalls = 1 ∧
        (getMarineWeather env req).dbWrites ≤ 1)) ∧
    (validationOf timezoneCfg req = .ok () →
      (needsGeo req && (searchLocation env.geo).isEmpty) = false →
      env.dbFindOk = true →
      (∀ r, lookupOf timezoneCfg env req = some r →
        getTimeZone env req =
          ⟨.ok timezoneCfg.hitMsg r.data, if needsGeo req then 1 else 0, 0,
            none, 0⟩) ∧
      (lookupOf timezoneCfg env req = none →
        (getTimeZone env req).upstreamCalls = 1 ∧
        (getTimeZone env req).dbWrites ≤ 1)) ∧
    (validationOf alertsCfg req = .ok () →
      (needsGeo req && (searchLocation env.geo).isEmpty) = false →
      env.dbFindOk = true →
      (∀ r, lookupOf alertsCfg env req = some r →
        getWeatherAlerts env req =
          ⟨.ok alertsCfg.hitMsg r.data, if needsGeo req then 1 else 0, 0,
            none, 0⟩) ∧
      (lookupOf alertsCfg env req = none →
        (getWeatherAlerts env req).upstreamCalls = 1 ∧
        (getWeatherAlerts env req).dbWrites ≤ 1)) ∧
    (validationOf astronomyCfg req = .ok () →
      (needsGeo req && (searchLocation env.geo).isEmpty) = false →
      env.dbFindOk = true →
      (∀ r, lookupOf astronomyCfg env req = some r →
        getAstronomy env req =
          ⟨.ok astronomyCfg.hitMsg r.data, if needsGeo req then 1 else 0, 0,
            none, 0⟩) ∧
      (lookupOf astronomyCfg env req = none →
        (getAstronomy env req).upstreamCalls = 1 ∧
        (getAstronomy env req).dbWrites ≤ 1)) ∧
    (validateLocation (historyLocation req) req.lat req.lon = .ok () →
      validateDate (historyDate req) = .ok () →
      (needsGeo req && (searchLocation env.geo).isEmpty) = false →
      env.dbFindOk = true →
      (∀ r, findInDatabase env.dbHistory env.now (historyDbQuery env req)
          CACHE_DURATIONS.history = some r →
        getWeatherHistory env req =
          ⟨.ok "Weather history retrieved from database" r.data,
            if needsGeo req then 1 else 0, 0, none, 0⟩) ∧
      (findInDatabase env.dbHistory env.now (historyDbQuery env req)
          CACHE_DURATIONS.history = none →
        (getWeatherHistory env req).upstreamCalls = 1 ∧
        (getWeatherHistory env req).dbWrites ≤ 1)) ∧
    ((truthy req.location || (truthy req.lat && truthy req.lon)) = true →
      (needsGeo req && (searchLocation env.geo).isEmpty) = false →
      env.dbFindOk = true →
      (∀ r, findInDatabase env.dbWeather env.now (sevenDbQuery env req)
          sevenDayWindow = some r →
        getSevenDayForecast env req =
          ⟨.ok "7-day forecast retrieved from database" r.data,
            if needsGeo req then 1 else 0, 0, none, 0⟩) ∧
      (findInDatabase env.dbWeather env.now (sevenDbQuery env req)
          sevenDayWindow = none →
        (getSevenDayForecast env req).upstreamCalls = 1 ∧
        (getSevenDayForecast env req).dbWrites ≤ 1)) := by
  refine ⟨fun coll q w => findInDatabase_eq_none_iff coll env.now q w,
    ?_, ?_, ?_, ?_, ?_, ?_, ?_, ?_, ?_⟩
  · intro hv hg hdb
    exact ⟨fun r hl => cached_hit currentCfg env req r hv hg hdb hl,
      fun hl => cached_miss currentCfg env req hv hg hdb hl⟩
  · intro hv hg hdb
    exact ⟨fun r hl => cached_hit forecastCfg env req r hv hg hdb hl,
      fun hl => cached_miss forecastCfg env req hv hg hdb hl⟩
  · intro hv hg hdb
    exact ⟨fun r hl => cached_hit futureCfg env req r hv hg hdb hl,
      fun hl => cached_miss futureCfg env req hv hg hdb hl⟩
  · intro hv hg hdb
    exact ⟨fun r hl => cached_hit marineCfg env req r hv hg hdb hl,
      fun hl => cached_miss marineCfg env req hv hg hdb hl⟩
  · intro hv hg hdb
    exact ⟨fun r hl => cached_hit timezoneCfg env req r hv hg hdb hl,
      fun hl => cached_miss timezoneCfg env req hv hg hdb hl⟩
  · intro hv hg hdb
    exact ⟨fun r hl => cached_hit alertsCfg env req r hv hg hdb hl,
      fun hl => cached_miss alertsCfg env req hv hg hdb hl⟩
  · intro hv hg hdb
    exact ⟨fun r hl => cached_hit astronomyCfg env req r hv hg hdb hl,
      fun hl => cached_miss astronomyCfg env req hv hg hdb hl⟩
  · intro hv hd hg hdb
    exact ⟨fun r hl => history_hit env req r hv hd hg hdb hl,
      fun hl => history_miss env req hv hd hg hdb hl⟩
  · intro hv hg hdb
    exact ⟨fun r hl => seven_hit env req r hv hg hdb hl,
      fun hl => seven_miss env req hv hg hdb hl⟩

/-- Claim C1, witness: with a fresh persisted record the current-weather
handler serves it from the store with zero upstream calls; with an empty
store it makes exactly one upstream call and at most one write. -/
theorem claim1_witness :
    getCurrentWeather envHit reqName =
      ⟨.ok currentCfg.hitMsg (Payload.raw 42), 1, 0, none, 0⟩ ∧
    (getCurrentWeather envBase reqName).upstreamCalls = 1 ∧
    (getCurrentWeather envBase reqName).dbWrites ≤ 1 := by
  refine ⟨?_, ?_⟩
  · have h := ((claim1_cache_discipline envHit reqName).2.1 rfl rfl rfl).1
      wrecCur rfl
    simpa using h
  · exact ((claim1_cache_discipline envBase reqName).2.1 rfl rfl rfl).2 rfl

/-- Claim C8: for every weather report endpoint — if a validated request
supplies only a place name (no coordinates) and geocoding yields zero
results, the request fails with the `Location not found` error and no
upstream weather-API call is made; if the caller supplies both coordinates,
no geocoding call is made and any upstream location query is the verbatim
`lat,lon` pair. -/
theorem claim8_location_resolution (env : Env) (req : Req) :
    (validationOf currentCfg req = .ok () → req.lat = none → req.lon = none →
      searchLocation env.geo = [] →
      getCurrentWeather env req =
        ⟨.err 500 "Location not found" (errMsg currentCfg.errType), 1, 0,
          none, 0⟩) ∧
    (truthy req.lat = true → truthy req.lon = true →
      (getCurrentWeather env req).geoCalls = 0 ∧
      ∀ s, (getCurrentWeather env req).apiQuery = some s → s = coordQ req) ∧
    (validationOf forecastCfg req = .ok () → req.lat = none → req.lon = none →
      searchLocation env.geo = [] →
      getForecast env req =
        ⟨.err 500 "Location not found" (errMsg forecastCfg.errType), 1, 0,
          none, 0⟩) ∧
    (truthy req.lat = true → truthy req.lon = true →
      (getForecast env req).geoCalls = 0 ∧
      ∀ s, (getForecast env req).apiQuery = some s → s = coordQ req) ∧
    (validationOf futureCfg req = .ok () → req.lat = none → req.lon = none →
      searchLocation env.geo = [] →
      getFutureWeather env req =
        ⟨.err 500 "Location not found" (errMsg futureCfg.errType), 1, 0,
          none, 0⟩) ∧
    (truthy req.lat = true → truthy req.lon = true →
      (getFutureWeather env req).geoCalls = 0 ∧
      ∀ s, (getFutureWeather env req).apiQuery = some s → s = coordQ req) ∧
    (validationOf marineCfg req = .ok () → req.lat = none → req.lon = none →
      searchLocation env.geo = [] →
      getMarineWeather env req =
        ⟨.err 500 "Location not found" (errMsg marineCfg.errType), 1, 0,
          none, 0⟩) ∧
    (truthy req.lat = true → truthy req.lon = true →
      (getMarineWeather env req).geoCalls = 0 ∧
      ∀ s, (getMarineWeather env req).apiQuery = some s → s = coordQ req) ∧
    (validationOf timezoneCfg req = .ok () → req.lat = none → req.lon = none →
      searchLocation env.geo = [] →
      getTimeZone env req =
        ⟨.err 500 "Location not found" (errMsg timezoneCfg.errType), 1, 0,
          none, 0⟩) ∧
    (truthy req.lat = true → truthy req.lon = true →
      (getTimeZone env req).geoCalls = 0 ∧
      ∀ s, (getTimeZone env req).apiQuery = some s → s = coordQ req) ∧
    (validationOf alertsCfg req = .ok () → req.lat = none → req.lon = none →
      searchLocation env.geo = [] →
      getWeatherAlerts env req =
        ⟨.err 500 "Location not found" (errMsg alertsCfg.errType), 1, 0,
          none, 0⟩) ∧
    (truthy req.lat = true → truthy req.lon = true →
      (getWeatherAlerts env req).geoCalls = 0 ∧
      ∀ s, (getWeatherAlerts env req).apiQuery = some s → s = coordQ req) ∧
    (validationOf astronomyCfg req = .ok () → req.lat = none → req.lon = none →
      searchLocation env.geo = [] →
      getAstronomy env req =
        ⟨.err 500 "Location not found" (errMsg astronomyCfg.errType), 1, 0,
          none, 0⟩) ∧
    (truthy req.lat = true → truthy req.lon = true →
      (getAstronomy env req).geoCalls = 0 ∧
      ∀ s, (getAstronomy env req).apiQuery = some s → s = coordQ req) ∧
    (validateLocation (historyLocation req) req.lat req.lon = .ok () →
      validateDate (historyDate req) = .ok () →
      req.lat = none → req.lon = none → searchLocation env.geo = [] →
      getWeatherHistory env req =
        ⟨.err 500 "Location not found" (errMsg "Weather History"), 1, 0,
          none, 0⟩) ∧
    (truthy req.lat = true → truthy req.lon = true →
      (getWeatherHistory env req).geoCalls = 0 ∧
      ∀ s, (getWeatherHistory env req).apiQuery = some s → s = coordQ req) ∧
    (truthy req.location = true → req.lat = none → req.lon = none →
      searchLocation env.geo = [] →
      getSevenDayForecast env req =
        ⟨.err 500 "Failed to fetch weather data" "Location not found", 1, 0,
          none, 0⟩) ∧
    (truthy req.lat = true → truthy req.lon = true →
      (getSevenDayForecast env req).geoCalls = 0 ∧
      ∀ s, (getSevenDayForecast env req).apiQuery = some s →
        s = coordQ req) := by
  refine ⟨?_, ?_, ?_, ?_, ?_, ?_, ?_, ?_, ?_, ?_, ?_, ?_, ?_, ?_, ?_, ?_, ?_,
    ?_⟩
  · exact fun hv hla hlo hg => cached_locNotFound currentCfg env req hv hla hlo hg
  · exact fun hla hlo => cached_coords currentCfg env req hla hlo
  · exact fun hv hla hlo hg => cached_locNotFound forecastCfg env req hv hla hlo hg
  · exact fun hla hlo => cached_coords forecastCfg env req hla hlo
  · exact fun hv hla hlo hg => cached_locNotFound futureCfg env req hv hla hlo hg
  · exact fun hla hlo => cached_coords futureCfg env req hla hlo
  · exact fun hv hla hlo hg => cached_locNotFound marineCfg env req hv hla hlo hg
  · exact fun hla hlo => cached_coords marineCfg env req hla hlo
  · exact fun hv hla hlo hg => cached_locNotFound timezoneCfg env req hv hla hlo hg
  · exact fun hla hlo => cached_coords timezoneCfg env req hla hlo
  · exact fun hv hla hlo hg => cached_locNotFound alertsCfg env req hv hla hlo hg
  · exact fun hla hlo => cached_coords alertsCfg env req hla hlo
  · exact fun hv hla hlo hg => cached_locNotFound astronomyCfg env req hv hla hlo hg
  · exact fun hla hlo => cached_coords astronomyCfg env req hla hlo
  · exact fun hv hd hla hlo hg => history_locNotFound env req hv hd hla hlo hg
  · exact fun hla hlo => history_coords env req hla hlo
  · exact fun hloc hla hlo hg => seven_locNotFound env req hloc hla hlo hg
  · exact fun hla hlo => seven_coords env req hla hlo

/-- Claim C8, witness: a name-only request over an empty geocoder result is
rejected with `Location not found` and no upstream call; a coordinate request
never geocodes and queries upstream with the verbatim pair. -/
theorem claim8_witness :
    getCurrentWeather { envBase with geo := .geoOk (some []) } reqName =
      ⟨.err 500 "Location not found" (errMsg "Current Weather"), 1, 0, none,
        0⟩ ∧
    (getCurrentWeather envBase reqCoord).geoCalls = 0 ∧
    (∀ s, (getCurrentWeather envBase reqCoord).apiQuery = some s →
      s = "21.03,105.85") := by
  refine ⟨?_, ?_, ?_⟩
  · exact (claim8_location_resolution { envBase with geo := .geoOk (some []) }
      reqName).1 rfl rfl rfl rfl
  · exact ((claim8_location_resolution envBase reqCoord).2.1 rfl rfl).1
  · exact ((claim8_location_resolution envBase reqCoord).2.1 rfl rfl).2

/-- Claim C9: `searchLocation` returns the empty list on any geocoding
transport or upstream error, so for every validated name-only weather
request a geocoder outage produces exactly the same response — the
`Location not found` failure — as a geocoder that genuinely finds zero
matches, and is never surfaced as an upstream-transport error. -/
theorem claim9_geocoder_outage_collapses (env : Env) (req : Req) :
    searchLocation GeoOutcome.geoError = [] ∧
    (validationOf currentCfg req = .ok () → req.lat = none → req.lon = none →
      getCurrentWeather { env with geo := .geoError } req =
        getCurrentWeather { env with geo := .geoOk (some []) } req ∧
      getCurrentWeather { env with geo := .geoError } req =
        ⟨.err 500 "Location not found" (errMsg currentCfg.errType), 1, 0,
          none, 0⟩) ∧
    (validationOf forecastCfg req = .ok () → req.lat = none → req.lon = none →
      getForecast { env with geo := .geoError } req =
        getForecast { env with geo := .geoOk (some []) } req ∧
      getForecast { env with geo := .geoError } req =
        ⟨.err 500 "Location not found" (errMsg forecastCfg.errType), 1, 0,
          none, 0⟩) ∧
    (validationOf futureCfg req = .ok () → req.lat = none → req.lon = none →
      getFutureWeather { env with geo := .geoError } req =
        getFutureWeather { env with geo := .geoOk (some []) } req ∧
      getFutureWeather { env with geo := .geoError } req =
        ⟨.err 500 "Location not found" (errMsg futureCfg.errType), 1, 0,
          none, 0⟩) ∧
    (validationOf marineCfg req = .ok () → req.lat = none → req.lon = none →
      getMarineWeather { env with geo := .geoError } req =
        getMarineWeather { env with geo := .geoOk (some []) } req ∧
      getMarineWeather { env with geo := .geoError } req =
        ⟨.err 500 "Location not found" (errMsg marineCfg.errType), 1, 0,
          none, 0⟩) ∧
    (validationOf timezoneCfg req = .ok () → req.lat = none → req.lon = none →
      getTimeZone { env with geo := .geoError } req =
        getTimeZone { env with geo := .geoOk (some []) } req ∧
      getTimeZone { env with geo := .geoError } req =
        ⟨.err 500 "Location not found" (errMsg timezoneCfg.errType), 1, 0,
          none, 0⟩) ∧
    (validationOf alertsCfg req = .ok () → req.lat = none → req.lon = none →
      getWeatherAlerts { env with geo := .geoError } req =
        getWeatherAlerts { env with geo := .geoOk (some []) } req ∧
      getWeatherAlerts { env with geo := .geoError } req =
        ⟨.err 500 "Location not found" (errMsg alertsCfg.errType), 1, 0,
          none, 0⟩) ∧
    (validationOf astronomyCfg req = .ok () → req.lat = none → req.lon = none →
      getAstronomy { env with geo := .geoError } req =
        getAstronomy { env with geo := .geoOk (some []) } req ∧
      getAstronomy { env with geo := .geoError } req =
        ⟨.err 500 "Location not found" (errMsg astronomyCfg.errType), 1, 0,
          none, 0⟩) ∧
    (validateLocation (historyLocation req) req.lat req.lon = .ok () →
      validateDate (historyDate req) = .ok () →
      req.lat = none → req.lon = none →
      getWeatherHistory { env with geo := .geoError } req =
        getWeatherHistory { env with geo := .geoOk (some []) } req ∧
      getWeatherHistory { env with geo := .geoError } req =
        ⟨.err 500 "Location not found" (errMsg "Weather History"), 1, 0,
          none, 0⟩) ∧
    (truthy req.location = true → req.lat = none → req.lon = none →
      getSevenDayForecast { env with geo := .geoError } req =
        getSevenDayForecast { env with geo := .geoOk (some []) } req ∧
      getSevenDayForecast { env with geo := .geoError } req =
        ⟨.err 500 "Failed to fetch weather data" "Location not found", 1, 0,
          none, 0⟩) := by
  refine ⟨rfl, ?_, ?_, ?_, ?_, ?_, ?_, ?_, ?_, ?_⟩
  · intro hv hla hlo
    have e1 := cached_locNotFound currentCfg { env with geo := .geoError }
      req hv hla hlo rfl
    have e2 := cached_locNotFound currentCfg { env with geo := .geoOk (some []) }
      req hv hla hlo rfl
    exact ⟨e1.trans e2.symm, e1⟩
  · intro hv hla hlo
    have e1 := cached_locNotFound forecastCfg { env with geo := .geoError }
      req hv hla hlo rfl
    have e2 := cached_locNotFound forecastCfg { env with geo := .geoOk (some []) }
      req hv hla hlo rfl
    exact ⟨e1.trans e2.symm, e1⟩
  · intro hv hla hlo
    have e1 := cached_locNotFound futureCfg { env with geo := .geoError }
      req hv hla hlo rfl
    have e2 := cached_locNotFound futureCfg { env with geo := .geoOk (some []) }
      req hv hla hlo rfl
    exact ⟨e1.trans e2.symm, e1⟩
  · intro hv hla hlo
    have e1 := cached_locNotFound marineCfg { env with geo := .geoError }
      req hv hla hlo rfl
    have e2 := cached_locNotFound marineCfg { env with geo := .geoOk (some []) }
      req hv hla hlo rfl
    exact ⟨e1.trans e2.symm, e1⟩
  · intro hv hla hlo
    have e1 := cached_locNotFound timezoneCfg { env with geo := .geoError }
      req hv hla hlo rfl
    have e2 := cached_locNotFound timezoneCfg { env with geo := .geoOk (some []) }
      req hv hla hlo rfl
    exact ⟨e1.trans e2.symm, e1⟩
  · intro hv hla hlo
    have e1 := cached_locNotFound alertsCfg { env with geo := .geoError }
      req hv hla hlo rfl
    have e2 := cached_locNotFound alertsCfg { env with geo := .geoOk (some []) }
      req hv hla hlo rfl
    exact ⟨e1.trans e2.symm, e1⟩
  · intro hv hla hlo
    have e1 := cached_locNotFound astronomyCfg { env with geo := .geoError }
      req hv hla hlo rfl
    have e2 := cached_locNotFound astronomyCfg { env with geo := .geoOk (some []) }
      req hv hla hlo rfl
    exact ⟨e1.trans e2.symm, e1⟩
  · intro hv hd hla hlo
    have e1 := history_locNotFound { env with geo := .geoError }
      req hv hd hla hlo rfl
    have e2 := history_locNotFound { env with geo := .geoOk (some []) }
      req hv hd hla hlo rfl
    exact ⟨e1.trans e2.symm, e1⟩
  · intro hloc hla hlo
    have e1 := seven_locNotFound { env with geo := .geoError }
      req hloc hla hlo rfl
    have e2 := seven_locNotFound { env with geo := .geoOk (some []) }
      req hloc hla hlo rfl
    exact ⟨e1.trans e2.symm, e1⟩

/-- Claim C9, witness: for the concrete name-only request, a geocoder outage
and an empty geocoder result produce identical `Location not found`
responses. -/
theorem claim9_witness :
    getCurrentWeather { envBase with geo := .geoError } reqName =
      getCurrentWeather { envBase with geo := .geoOk (some []) } reqName ∧
    getCurrentWeather { envBase with geo := .geoError } reqName =
      ⟨.err 500 "Location not found" (errMsg "Current Weather"), 1, 0, none,
        0⟩ :=
  (claim9_geocoder_outage_collapses envBase reqName).2.1 rfl rfl rfl

/-- Claim C10: the module-level in-memory cache map (and its accessors
`getCachedData`/`setCachedData`, embedded above) is dead state for every
route handler the router registers — the nine weather-report handlers, the
two notification handlers, the subscribe/unsubscribe handlers, and the two
chat handlers: two runs of any request that differ only in the in-memory
cache map's contents produce identical results — every caching decision goes
through the persistent store alone. -/
theorem claim10_memcache_never_read (env : Env) (req : Req)
    (ne : NotifEnv) (ce : ChatEnv) (sb : SubBody) (cb : ChatBody)
    (sid : Option String) (mc : List (String × CacheEntry)) :
    getCurrentWeather { env with memCache := mc } req =
      getCurrentWeather env req ∧
    getForecast { env with memCache := mc } req = getForecast env req ∧
    getFutureWeather { env with memCache := mc } req =
      getFutureWeather env req ∧
    getMarineWeather { env with memCache := mc } req =
      getMarineWeather env req ∧
    getTimeZone { env with memCache := mc } req = getTimeZone env req ∧
    getWeatherAlerts { env with memCache := mc } req =
      getWeatherAlerts env req ∧
    getAstronomy { env with memCache := mc } req = getAstronomy env req ∧
    getWeatherHistory { env with memCache := mc } req =
      getWeatherHistory env req ∧
    getSevenDayForecast { env with memCache := mc } req =
      getSevenDayForecast env req ∧
    getWeatherNotifications
        { ne with base := { ne.base with memCache := mc } } req =
      getWeatherNotifications ne req ∧
    getWeatherNotificationDetail
        { ne with base := { ne.base with memCache := mc } } req =
      getWeatherNotificationDetail ne req ∧
    subscribeToAlerts { env with memCache := mc } sb =
      subscribeToAlerts env sb ∧
    unsubscribeFromAlerts { env with memCache := mc } sb =
      unsubscribeFromAlerts env sb ∧
    handleChat { ce with base := { ce.base with memCache := mc } } cb =
      handleChat ce cb ∧
    getChatHistory { ce with base := { ce.base with memCache := mc } } sid =
      getChatHistory ce sid :=
  ⟨rfl, rfl, rfl, rfl, rfl, rfl, rfl, rfl, rfl, rfl, rfl, rfl, rfl, rfl, rfl⟩

end Weather
